import Mathlib

/-!
Shallow embedding of the bulk-verification pipeline of the `integrity`
dashboard (reports pages).  Cell values and JSON payloads are both modelled
by the `Json` type below; Python `dict` update semantics are modelled by
association lists whose *last* binding for a key wins, so that appending a
list of bindings behaves exactly like a sequence of dictionary writes.

Sources embedded here:
  - reports/2___PAN_Verification.py   (verify_pan, cache_pan_verification,
    process_pan_verification)
  - reports/1__MCA Operations.py      (process_mca_company_master_data)
  - reports/12__Court_Record_Check.py (process_court_record_verification,
    its polling loop)
  - reports/5__Driving_License_Verification.py (process_parivahan_verification,
    its polling loop)
-/

/-- A Python/JSON value as it appears in pandas cells and API payloads.
`null` doubles for Python `None` and a pandas missing cell (NaN). -/
inductive Json where
  | null : Json
  | bool : Bool → Json
  | num : Int → Json
  | str : String → Json
  | arr : List Json → Json
  | obj : List (String × Json) → Json
deriving Repr

mutual

/-- Boolean equality on `Json` (structural). -/
def Json.beq : Json → Json → Bool
  | .null, .null => true
  | .bool a, .bool b => a == b
  | .num a, .num b => a == b
  | .str a, .str b => a == b
  | .arr xs, .arr ys => Json.beqList xs ys
  | .obj fs, .obj gs => Json.beqFields fs gs
  | _, _ => false
termination_by structural a => a

/-- Boolean equality on lists of `Json`. -/
def Json.beqList : List Json → List Json → Bool
  | [], [] => true
  | x :: xs, y :: ys => Json.beq x y && Json.beqList xs ys
  | _, _ => false
termination_by structural a => a

/-- Boolean equality on association lists of `Json`. -/
def Json.beqFields : List (String × Json) → List (String × Json) → Bool
  | [], [] => true
  | (k, v) :: fs, (l, w) :: gs => k == l && Json.beq v w && Json.beqFields fs gs
  | _, _ => false
termination_by structural a => a

end

mutual

theorem Json.eq_of_beq : ∀ {a b : Json}, Json.beq a b = true → a = b
  | .null, .null, _ => rfl
  | .bool _, .bool _, h => by
    simp only [Json.beq, beq_iff_eq] at h; exact congrArg Json.bool h
  | .num _, .num _, h => by
    simp only [Json.beq, beq_iff_eq] at h; exact congrArg Json.num h
  | .str _, .str _, h => by
    simp only [Json.beq, beq_iff_eq] at h; exact congrArg Json.str h
  | .arr _, .arr _, h => congrArg Json.arr (Json.eqList_of_beq h)
  | .obj _, .obj _, h => congrArg Json.obj (Json.eqFields_of_beq h)

theorem Json.eqList_of_beq : ∀ {xs ys : List Json}, Json.beqList xs ys = true → xs = ys
  | [], [], _ => rfl
  | x :: xs, y :: ys, h => by
    have h1 : Json.beq x y = true ∧ Json.beqList xs ys = true := by
      simpa [Json.beqList, Bool.and_eq_true] using h
    rw [Json.eq_of_beq h1.1, Json.eqList_of_beq h1.2]

theorem Json.eqFields_of_beq :
    ∀ {fs gs : List (String × Json)}, Json.beqFields fs gs = true → fs = gs
  | [], [], _ => rfl
  | (k, v) :: fs, (l, w) :: gs, h => by
    have h1 : (k == l) = true ∧ Json.beq v w = true ∧ Json.beqFields fs gs = true := by
      simpa [Json.beqFields, Bool.and_eq_true, and_assoc] using h
    have hk : k = l := by simpa [beq_iff_eq] using h1.1
    rw [hk, Json.eq_of_beq h1.2.1, Json.eqFields_of_beq h1.2.2]

end

mutual

theorem Json.beq_refl : ∀ a : Json, Json.beq a a = true
  | .null => rfl
  | .bool b => by simp [Json.beq]
  | .num n => by simp [Json.beq]
  | .str s => by simp [Json.beq]
  | .arr xs => Json.beqList_refl xs
  | .obj fs => Json.beqFields_refl fs

theorem Json.beqList_refl : ∀ xs : List Json, Json.beqList xs xs = true
  | [] => rfl
  | x :: xs => by
    simp only [Json.beqList, Bool.and_eq_true]
    exact ⟨Json.beq_refl x, Json.beqList_refl xs⟩

theorem Json.beqFields_refl : ∀ fs : List (String × Json), Json.beqFields fs fs = true
  | [] => rfl
  | (k, v) :: fs => by
    simp only [Json.beqFields, Bool.and_eq_true]
    exact ⟨⟨by simp, Json.beq_refl v⟩, Json.beqFields_refl fs⟩

end

instance : DecidableEq Json := fun a b =>
  if h : Json.beq a b = true then isTrue (Json.eq_of_beq h)
  else isFalse (fun he => h (he ▸ Json.beq_refl a))

/-- Python truthiness of a value (`if x:`). -/
def Json.isTruthy : Json → Bool
  | .null => false
  | .bool b => b
  | .num n => decide (n ≠ 0)
  | .str s => decide (s ≠ "")
  | .arr xs => !xs.isEmpty
  | .obj fs => !fs.isEmpty

/-- Lookup in an association list modelling a Python dict built by repeated
writes: the last binding for a key wins. -/
def dictFind : List (String × Json) → String → Option Json
  | [], _ => none
  | (k, v) :: rest, key =>
    match dictFind rest key with
    | some r => some r
    | none => if k = key then some v else none

/-- Python `d.get(key, default)` on a value known to be a dict; on any other
value the attribute access raises (`AttributeError`), modelled as `.error`. -/
def pyGetD : Json → String → Json → Except String Json
  | .obj fs, key, d => .ok ((dictFind fs key).getD d)
  | _, _, _ => .error "AttributeError"

/-- Total variant of `pyGetD` used only in specification-side descriptions of
outputs (never to embed a source call site that can raise). -/
def jsonGetTotal (j : Json) (key : String) (d : Json) : Json :=
  match j with
  | .obj fs => (dictFind fs key).getD d
  | _ => d

/-- Python `str(x)` for the scalar values that reach it in the embedded code
paths.  The rendering of nested containers is only used for cosmetic cells
(`str(categories)`) and is approximated. -/
def pyStr : Json → String
  | .null => "None"
  | .bool b => if b then "True" else "False"
  | .num n => toString n
  | .str s => s
  | .arr _ => "[...]"
  | .obj _ => "{...}"

/-- Python `s.strip()`: drop whitespace from both ends (written over the
character list so that it evaluates by kernel reduction). -/
def pyStrip (s : String) : String :=
  String.mk (((s.data.dropWhile Char.isWhitespace).reverse.dropWhile Char.isWhitespace).reverse)

/-- The guard `pd.isna(x) or str(x).strip() == ""` used by every page to
short-circuit rows with a missing identifier. -/
def cellMissing (c : Json) : Bool :=
  decide (c = Json.null) || decide (pyStrip (pyStr c) = "")

/-- Python iteration (`for x in v`) over a value: lists yield elements,
strings yield one-character strings, dicts yield their keys, anything else
raises `TypeError`. -/
def pyIterate : Json → Except String (List Json)
  | .arr xs => .ok xs
  | .str s => .ok (s.toList.map (fun c => Json.str (String.singleton c)))
  | .obj fs => .ok (fs.map (fun f => Json.str f.1))
  | _ => .error "TypeError"

/-- Python double-star unpacking of a value into keyword bindings: only a
dict is accepted, anything else raises `TypeError`. -/
def pyKwargs : Json → Except String (List (String × Json))
  | .obj fs => .ok fs
  | _ => .error "TypeError"

/-- `map_response_to_df(response, expected_keys)`: the dict comprehension
`response.get(key, "") for key in expected_keys`; raises when `response`
is a truthy non-dict (shared by every page). -/
def map_response_to_df (response : Json) (expectedKeys : List String) :
    Except String (List (String × Json)) :=
  expectedKeys.mapM (fun k => (pyGetD response k (Json.str "")).map (fun v => (k, v)))

/-- Decimal-integer recognition of pandas default inference, on the
character list so that it evaluates by kernel reduction. -/
def pyDigits? (s : String) : Option Nat :=
  if s.data.isEmpty then none
  else if s.data.all Char.isDigit then
    some (s.data.foldl (fun acc c => acc * 10 + (c.toNat - 48)) 0)
  else none

/-- One cell of an uploaded CSV/XLSX column as produced by pandas.  With
`dtypeStr = true` the column was declared `dtype=str` and the raw text is
kept verbatim; otherwise pandas default inference converts an all-digit
cell to a number (dropping leading zeros).  An empty cell becomes NaN
(`null`) either way. -/
def readCell (dtypeStr : Bool) (raw : String) : Json :=
  if raw = "" then Json.null
  else if dtypeStr then Json.str raw
  else
    match pyDigits? raw with
    | some n => Json.num n
    | none => Json.str raw

/-- How the PAN page reads an identifier cell: `pd.read_csv(file)` with no
dtype override (reports/2___PAN_Verification.py line 91). -/
def panVerificationReadCell (raw : String) : Json := readCell false raw

/-- How the court-record page reads a cell: `pd.read_csv(file, dtype=str)`
(reports/12__Court_Record_Check.py line 254). -/
def courtRecordReadCell (raw : String) : Json := readCell true raw

/-! ## PAN verification page (reports/2___PAN_Verification.py) -/

/-- The external transport of the PAN page: one `requests.post` round-trip
plus JSON decoding, as a pure oracle that either yields the decoded body or
raises one of the caught exception classes. -/
def PanApi := Json → String → Except String Json

/-- Session state of one run: the `st.cache_data` memo for
`cache_pan_verification` plus the log of transport calls actually made. -/
structure PanSt where
  cache : List ((Json × String) × Json)
  calls : List (Json × String)
deriving DecidableEq

deriving instance DecidableEq for Except

/-- Lookup in the memo table (keys are unique by construction). -/
def cacheFind (cache : List ((Json × String) × Json)) (k : Json × String) : Option Json :=
  match cache with
  | [] => none
  | (k2, v) :: rest => if k2 = k then some v else cacheFind rest k

/-- `verify_pan` (lines 48-82): short-circuits on a missing token, otherwise
performs the transport call; every caught exception yields the empty dict.
The second component is the updated transport-call log. -/
def verify_pan (api : PanApi) (pan : Json) (auth_token : String)
    (calls : List (Json × String)) : Json × List (Json × String) :=
  if auth_token = "" then (Json.obj [], calls)
  else
    match api pan auth_token with
    | .ok data => (data, calls ++ [(pan, auth_token)])
    | .error _ => (Json.obj [], calls ++ [(pan, auth_token)])

/-- `cache_pan_verification` (lines 84-86): `st.cache_data` memoization of
`verify_pan` keyed on the argument tuple. -/
def cache_pan_verification (api : PanApi) (st : PanSt) (pan : Json)
    (auth_token : String) : Json × PanSt :=
  match cacheFind st.cache (pan, auth_token) with
  | some r => (r, st)
  | none =>
    let res := verify_pan api pan auth_token st.calls
    (res.1, { cache := st.cache ++ [((pan, auth_token), res.1)], calls := res.2 })

/-- The `expected_keys` list of the PAN page (line 108). -/
def panExpectedKeys : List String := ["valid", "category", "name", "aadhaarLinked", "message"]

/-- One parsed input row of the PAN page (columns `sno`, `pan`). -/
structure PanInRow where
  sno : Json
  pan : Json
deriving DecidableEq, Repr

/-- One output row of the PAN page: the input columns plus the five result
columns written by the loop. -/
structure PanOutRow where
  sno : Json
  pan : Json
  valid : Json
  category : Json
  name : Json
  aadhaarLinked : Json
  message : Json
deriving DecidableEq, Repr

/-- The row written for a blank identifier (lines 122-129). -/
def panMissingRow (row : PanInRow) : PanOutRow :=
  { sno := row.sno, pan := row.pan, valid := Json.bool false, category := Json.str "",
    name := Json.str "", aadhaarLinked := Json.str "",
    message := Json.str "PAN is missing." }

/-- The row written for an empty verification result (lines 141-147). -/
def panNoDataRow (row : PanInRow) : PanOutRow :=
  { sno := row.sno, pan := row.pan, valid := Json.bool false, category := Json.str "",
    name := Json.str "", aadhaarLinked := Json.str "",
    message := Json.str "No data returned from API." }

/-- The body of the per-row loop of `process_pan_verification`
(lines 116-147).  An exception escaping the row (only possible from
`map_response_to_df` on a truthy non-dict response) is propagated as
`.error`, to be caught by the function-level handler. -/
def processPanRow (api : PanApi) (auth_token : String) (st : PanSt) (row : PanInRow) :
    Except String (PanOutRow × PanSt) :=
  if cellMissing row.pan then .ok (panMissingRow row, st)
  else
    let res := cache_pan_verification api st row.pan auth_token
    if res.1.isTruthy then
      match map_response_to_df res.1 panExpectedKeys with
      | .error e => .error e
      | .ok mapped =>
        .ok ({ sno := row.sno, pan := row.pan,
               valid := (dictFind mapped "valid").getD (Json.bool false),
               category := (dictFind mapped "category").getD (Json.str ""),
               name := (dictFind mapped "name").getD (Json.str ""),
               aadhaarLinked := (dictFind mapped "aadhaarLinked").getD (Json.str ""),
               message := (dictFind mapped "message").getD (Json.str "") }, res.2)
    else .ok (panNoDataRow row, res.2)

/-- The whole per-row loop, threading the session state. -/
def processPanRows (api : PanApi) (auth_token : String) :
    List PanInRow → PanSt → Except String (List PanOutRow × PanSt)
  | [], st => .ok ([], st)
  | row :: rows, st =>
    match processPanRow api auth_token st row with
    | .error e => .error e
    | .ok (out, st1) =>
      match processPanRows api auth_token rows st1 with
      | .error e => .error e
      | .ok (outs, st2) => .ok (out :: outs, st2)

/-- `process_pan_verification` (lines 88-156) after file-type and
required-column validation succeeded: runs the loop on the parsed rows; the
function-level `except` turns any escaped exception into `None`. -/
def process_pan_verification (api : PanApi) (auth_token : String)
    (rows : List PanInRow) : Option (List PanOutRow) :=
  match processPanRows api auth_token rows { cache := [], calls := [] } with
  | .ok res => some res.1
  | .error _ => none

/-- The value `verify_pan` computes, independent of the call log. -/
def pureVerifyPan (api : PanApi) (pan : Json) (auth_token : String) : Json :=
  if auth_token = "" then Json.obj []
  else
    match api pan auth_token with
    | .ok data => data
    | .error _ => Json.obj []

/-- The output row determined by a verification result value (specification
side; coincides with the loop body whenever the latter does not raise). -/
def panFieldsOf (row : PanInRow) (res : Json) : PanOutRow :=
  if res.isTruthy then
    { sno := row.sno, pan := row.pan,
      valid := jsonGetTotal res "valid" (Json.str ""),
      category := jsonGetTotal res "category" (Json.str ""),
      name := jsonGetTotal res "name" (Json.str ""),
      aadhaarLinked := jsonGetTotal res "aadhaarLinked" (Json.str ""),
      message := jsonGetTotal res "message" (Json.str "") }
  else panNoDataRow row

/-- The pure output row of one input row. -/
def panRowOutPure (api : PanApi) (auth_token : String) (row : PanInRow) : PanOutRow :=
  if cellMissing row.pan then panMissingRow row
  else panFieldsOf row (pureVerifyPan api row.pan auth_token)

/-- The five result columns of an output row. -/
def resultFields (out : PanOutRow) : Json × Json × Json × Json × Json :=
  (out.valid, out.category, out.name, out.aadhaarLinked, out.message)

/-- Number of transport calls recorded for one memo key. -/
def keyCount (l : List (Json × String)) (k : Json × String) : Nat :=
  (l.filter (fun x => decide (x = k))).length

/-- A transport whose successful responses are always JSON objects when
truthy (the shape every endpoint documents). -/
def apiSafe (api : PanApi) : Prop :=
  ∀ p t d, api p t = .ok d → d.isTruthy = true → ∃ fs, d = Json.obj fs

/-- Invariant of the session state along the batch loop. -/
structure PanInv (api : PanApi) (auth_token : String) (st : PanSt) : Prop where
  cacheVals : ∀ e ∈ st.cache, e.2 = pureVerifyPan api e.1.1 e.1.2
  cacheToks : ∀ e ∈ st.cache, e.1.2 = auth_token
  callsOnce : ∀ k, keyCount st.calls k ≤ 1
  callsCached : ∀ k ∈ st.calls, (cacheFind st.cache k).isSome = true
  cachedCalled : ∀ e ∈ st.cache, e.1.2 ≠ "" → e.1 ∈ st.calls

/-! ### Lemmas about the PAN session state -/

theorem cacheFind_append (c1 c2 : List ((Json × String) × Json)) (k : Json × String) :
    cacheFind (c1 ++ c2) k =
      match cacheFind c1 k with
      | some v => some v
      | none => cacheFind c2 k := by
  induction c1 with
  | nil => simp [cacheFind]
  | cons e rest ih =>
    obtain ⟨k2, v⟩ := e
    by_cases h : k2 = k <;> simp [cacheFind, h, ih]

theorem cacheFind_mem {c : List ((Json × String) × Json)} {k : Json × String} {v : Json}
    (h : cacheFind c k = some v) : (k, v) ∈ c := by
  induction c with
  | nil => simp [cacheFind] at h
  | cons e rest ih =>
    obtain ⟨k2, w⟩ := e
    by_cases hk : k2 = k
    · subst hk
      simp [cacheFind] at h
      simp [h]
    · simp [cacheFind, hk] at h
      exact List.mem_cons_of_mem _ (ih h)

theorem cacheFind_isSome_append {c : List ((Json × String) × Json)} {k : Json × String}
    (ex : List ((Json × String) × Json))
    (h : (cacheFind c k).isSome = true) : (cacheFind (c ++ ex) k).isSome = true := by
  rw [cacheFind_append]
  cases hf : cacheFind c k with
  | none => rw [hf] at h; simp at h
  | some v => simp

theorem keyCount_append (l : List (Json × String)) (k0 k : Json × String) :
    keyCount (l ++ [k0]) k = keyCount l k + (if k = k0 then 1 else 0) := by
  by_cases h : k = k0 <;> simp [keyCount, List.filter_append, h, eq_comm]

theorem keyCount_eq_zero {l : List (Json × String)} {k : Json × String}
    (h : k ∉ l) : keyCount l k = 0 := by
  rw [keyCount, List.length_eq_zero, List.filter_eq_nil]
  intro a ha
  simp only [decide_eq_true_eq]
  intro hak
  exact h (hak ▸ ha)

theorem verify_pan_fst (api : PanApi) (pan : Json) (tok : String)
    (calls : List (Json × String)) :
    (verify_pan api pan tok calls).1 = pureVerifyPan api pan tok := by
  unfold verify_pan pureVerifyPan
  by_cases h : tok = "" <;> simp [h] <;> cases api pan tok <;> simp

theorem verify_pan_snd (api : PanApi) (pan : Json) (tok : String)
    (calls : List (Json × String)) :
    (verify_pan api pan tok calls).2 =
      if tok = "" then calls else calls ++ [(pan, tok)] := by
  unfold verify_pan
  by_cases h : tok = "" <;> simp [h] <;> cases api pan tok <;> simp

theorem cache_pan_fst {api : PanApi} {tok : String} {st : PanSt} (pan : Json)
    (hinv : PanInv api tok st) :
    (cache_pan_verification api st pan tok).1 = pureVerifyPan api pan tok := by
  unfold cache_pan_verification
  cases hfind : cacheFind st.cache (pan, tok) with
  | some r =>
    simpa using hinv.cacheVals _ (cacheFind_mem hfind)
  | none =>
    simpa using verify_pan_fst api pan tok st.calls

theorem cache_pan_inv {api : PanApi} {tok : String} {st : PanSt} (pan : Json)
    (hinv : PanInv api tok st) :
    PanInv api tok (cache_pan_verification api st pan tok).2 ∧
    (∃ ex, (cache_pan_verification api st pan tok).2.cache = st.cache ++ ex) ∧
    (∃ ex, (cache_pan_verification api st pan tok).2.calls = st.calls ++ ex) ∧
    (cacheFind (cache_pan_verification api st pan tok).2.cache (pan, tok)).isSome = true := by
  unfold cache_pan_verification
  cases hfind : cacheFind st.cache (pan, tok) with
  | some r =>
    exact ⟨hinv, ⟨[], by simp⟩, ⟨[], by simp⟩, by simp [hfind]⟩
  | none =>
    simp only
    have hv := verify_pan_fst api pan tok st.calls
    have hc := verify_pan_snd api pan tok st.calls
    have hkey : (pan, tok) ∉ st.calls := by
      intro hmem
      have := hinv.callsCached _ hmem
      rw [hfind] at this
      simp at this
    constructor
    · constructor
      · intro e he
        rcases List.mem_append.mp he with h1 | h1
        · exact hinv.cacheVals _ h1
        · simp at h1
          subst h1
          simpa using hv
      · intro e he
        rcases List.mem_append.mp he with h1 | h1
        · exact hinv.cacheToks _ h1
        · simp at h1
          subst h1
          rfl
      · intro k
        rw [hc]
        by_cases htok : tok = ""
        · simpa [htok] using hinv.callsOnce k
        · rw [if_neg htok, keyCount_append]
          by_cases hk : k = (pan, tok)
          · subst hk
            rw [keyCount_eq_zero hkey]
            simp
          · simpa [hk] using hinv.callsOnce k
      · intro k hk
        rw [hc] at hk
        by_cases htok : tok = ""
        · rw [if_pos htok] at hk
          exact cacheFind_isSome_append _ (hinv.callsCached _ hk)
        · rw [if_neg htok] at hk
          rcases List.mem_append.mp hk with h1 | h1
          · exact cacheFind_isSome_append _ (hinv.callsCached _ h1)
          · simp at h1
            subst h1
            rw [cacheFind_append, hfind]
            simp [cacheFind]
      · intro e he hne
        rw [hc]
        rcases List.mem_append.mp he with h1 | h1
        · have := hinv.cachedCalled _ h1 hne
          by_cases htok : tok = "" <;> simp [htok, this]
        · simp at h1
          subst h1
          simp only at hne
          rw [if_neg hne]
          simp
    · refine ⟨⟨_, rfl⟩, ?_, ?_⟩
      · by_cases htok : tok = ""
        · exact ⟨[], by subst htok; rw [hc]; simp⟩
        · exact ⟨[(pan, tok)], by rw [hc]; simp [htok]⟩
      · rw [cacheFind_append, hfind]
        simp [cacheFind]

theorem map_response_obj (fs : List (String × Json)) (keys : List String) :
    map_response_to_df (Json.obj fs) keys =
      .ok (keys.map (fun k => (k, (dictFind fs k).getD (Json.str "")))) := by
  induction keys with
  | nil => rfl
  | cons k ks ih =>
    unfold map_response_to_df at ih ⊢
    rw [List.mapM_cons, ih]
    rfl

theorem map_response_not_obj {res : Json} (h : ∀ fs, res ≠ Json.obj fs)
    (k : String) (keys : List String) :
    map_response_to_df res (k :: keys) = .error "AttributeError" := by
  have hg : pyGetD res k (Json.str "") = .error "AttributeError" := by
    cases res <;> first | rfl | exact absurd rfl (h _)
  unfold map_response_to_df
  rw [List.mapM_cons, hg]
  rfl

theorem map_response_pan_not_obj {res : Json} (h : ∀ fs, res ≠ Json.obj fs) :
    map_response_to_df res panExpectedKeys = .error "AttributeError" :=
  map_response_not_obj h "valid" ["category", "name", "aadhaarLinked", "message"]

theorem processPanRow_ok_spec {api : PanApi} {tok : String} {st : PanSt} {row : PanInRow}
    {out : PanOutRow} {st2 : PanSt} (hinv : PanInv api tok st)
    (h : processPanRow api tok st row = .ok (out, st2)) :
    out = panRowOutPure api tok row ∧ PanInv api tok st2 ∧
    (∃ ex, st2.cache = st.cache ++ ex) ∧ (∃ ex, st2.calls = st.calls ++ ex) ∧
    (cellMissing row.pan = false →
      (cacheFind st2.cache (row.pan, tok)).isSome = true) := by
  by_cases hm : cellMissing row.pan = true
  · rw [processPanRow, if_pos hm] at h
    simp only [Except.ok.injEq, Prod.mk.injEq] at h
    obtain ⟨ho, hst⟩ := h
    subst ho
    subst hst
    exact ⟨by rw [panRowOutPure, if_pos hm], hinv, ⟨[], by simp⟩, ⟨[], by simp⟩,
      fun hc => by rw [hm] at hc; cases hc⟩
  · obtain ⟨hinv2, hcex, hlex, hcached⟩ := cache_pan_inv row.pan hinv
    have hfst := cache_pan_fst row.pan hinv
    simp only [processPanRow] at h
    rw [if_neg hm, hfst] at h
    by_cases ht : (pureVerifyPan api row.pan tok).isTruthy = true
    · rw [if_pos ht] at h
      cases hres : pureVerifyPan api row.pan tok with
      | obj fs =>
        rw [hres, map_response_obj] at h
        simp only [Except.ok.injEq, Prod.mk.injEq] at h
        obtain ⟨ho, hst⟩ := h
        subst hst
        have htr : (Json.obj fs).isTruthy = true := hres ▸ ht
        refine ⟨?_, hinv2, hcex, hlex, fun _ => hcached⟩
        rw [panRowOutPure, if_neg hm, hres, panFieldsOf, if_pos htr, ← ho]
        simp [panExpectedKeys, jsonGetTotal, dictFind]
      | null => rw [hres] at ht; simp [Json.isTruthy] at ht
      | bool b =>
        rw [hres, map_response_pan_not_obj (fun fs hc => by cases hc)] at h
        cases h
      | num n =>
        rw [hres, map_response_pan_not_obj (fun fs hc => by cases hc)] at h
        cases h
      | str s =>
        rw [hres, map_response_pan_not_obj (fun fs hc => by cases hc)] at h
        cases h
      | arr xs =>
        rw [hres, map_response_pan_not_obj (fun fs hc => by cases hc)] at h
        cases h
    · rw [if_neg ht] at h
      simp only [Except.ok.injEq, Prod.mk.injEq] at h
      obtain ⟨ho, hst⟩ := h
      subst hst
      refine ⟨?_, hinv2, hcex, hlex, fun _ => hcached⟩
      rw [panRowOutPure, if_neg hm, panFieldsOf, if_neg ht, ← ho]

theorem pureVerifyPan_safe {api : PanApi} (hsafe : apiSafe api) (pan : Json) (tok : String)
    (ht : (pureVerifyPan api pan tok).isTruthy = true) :
    ∃ fs, pureVerifyPan api pan tok = Json.obj fs := by
  unfold pureVerifyPan at ht ⊢
  by_cases h : tok = ""
  · rw [if_pos h] at ht
    simp [Json.isTruthy] at ht
  · rw [if_neg h] at ht ⊢
    cases happ : api pan tok with
    | ok d =>
      simp only [happ] at ht ⊢
      exact hsafe pan tok d happ ht
    | error e =>
      simp only [happ] at ht
      simp [Json.isTruthy] at ht

theorem processPanRow_total {api : PanApi} {tok : String} {st : PanSt} {row : PanInRow}
    (hinv : PanInv api tok st) (hsafe : apiSafe api) :
    ∃ out st2, processPanRow api tok st row = .ok (out, st2) := by
  cases hp : processPanRow api tok st row with
  | ok p =>
    obtain ⟨o, s⟩ := p
    exact ⟨o, s, rfl⟩
  | error e =>
    exfalso
    by_cases hm : cellMissing row.pan = true
    · rw [processPanRow, if_pos hm] at hp
      cases hp
    · have hfst := cache_pan_fst row.pan hinv
      simp only [processPanRow] at hp
      rw [if_neg hm, hfst] at hp
      by_cases ht : (pureVerifyPan api row.pan tok).isTruthy = true
      · obtain ⟨fs, hres⟩ := pureVerifyPan_safe hsafe row.pan tok ht
        rw [if_pos ht, hres, map_response_obj] at hp
        cases hp
      · rw [if_neg ht] at hp
        cases hp

theorem processPanRows_ok_spec {api : PanApi} {tok : String} :
    ∀ {rows : List PanInRow} {st : PanSt} {outs : List PanOutRow} {st2 : PanSt},
    PanInv api tok st →
    processPanRows api tok rows st = .ok (outs, st2) →
    outs = rows.map (panRowOutPure api tok) ∧ PanInv api tok st2 ∧
    (∃ ex, st2.cache = st.cache ++ ex) ∧ (∃ ex, st2.calls = st.calls ++ ex) ∧
    ∀ row ∈ rows, cellMissing row.pan = false →
      (cacheFind st2.cache (row.pan, tok)).isSome = true := by
  intro rows
  induction rows with
  | nil =>
    intro st outs st2 hinv h
    simp only [processPanRows, Except.ok.injEq, Prod.mk.injEq] at h
    obtain ⟨ho, hst⟩ := h
    subst ho
    subst hst
    exact ⟨rfl, hinv, ⟨[], by simp⟩, ⟨[], by simp⟩, by simp⟩
  | cons row rows ih =>
    intro st outs st2 hinv h
    simp only [processPanRows] at h
    cases h1 : processPanRow api tok st row with
    | error e => simp [h1] at h
    | ok p =>
      obtain ⟨out, st1⟩ := p
      simp only [h1] at h
      cases h2 : processPanRows api tok rows st1 with
      | error e => simp [h2] at h
      | ok q =>
        obtain ⟨outs2, st2b⟩ := q
        simp only [h2, Except.ok.injEq, Prod.mk.injEq] at h
        obtain ⟨ho, hst⟩ := h
        subst ho
        subst hst
        obtain ⟨hspec1, hinv1, hc1, hl1, hcached1⟩ := processPanRow_ok_spec hinv h1
        obtain ⟨hspec2, hinv2, hc2, hl2, hcached2⟩ := ih hinv1 h2
        refine ⟨by rw [List.map_cons, hspec1, hspec2], hinv2, ?_, ?_, ?_⟩
        · obtain ⟨ex1, he1⟩ := hc1
          obtain ⟨ex2, he2⟩ := hc2
          exact ⟨ex1 ++ ex2, by rw [he2, he1, List.append_assoc]⟩
        · obtain ⟨ex1, he1⟩ := hl1
          obtain ⟨ex2, he2⟩ := hl2
          exact ⟨ex1 ++ ex2, by rw [he2, he1, List.append_assoc]⟩
        · intro r hr hmf
          rcases List.mem_cons.mp hr with hr | hr
          · subst hr
            obtain ⟨ex2, he2⟩ := hc2
            rw [he2]
            exact cacheFind_isSome_append _ (hcached1 hmf)
          · exact hcached2 _ hr hmf

theorem processPanRows_total {api : PanApi} {tok : String} (hsafe : apiSafe api) :
    ∀ (rows : List PanInRow) (st : PanSt), PanInv api tok st →
    ∃ outs st2, processPanRows api tok rows st = .ok (outs, st2) := by
  intro rows
  induction rows with
  | nil => exact fun st _ => ⟨[], st, rfl⟩
  | cons row rows ih =>
    intro st hinv
    obtain ⟨out, st1, h1⟩ := @processPanRow_total api tok st row hinv hsafe
    obtain ⟨-, hinv1, -, -, -⟩ := processPanRow_ok_spec hinv h1
    obtain ⟨outs, st2, h2⟩ := ih st1 hinv1
    refine ⟨out :: outs, st2, ?_⟩
    simp only [processPanRows, h1, h2]

theorem panInv_init (api : PanApi) (tok : String) :
    PanInv api tok { cache := [], calls := [] } := by
  refine ⟨?_, ?_, ?_, ?_, ?_⟩ <;> simp [keyCount]

theorem resultFields_pure_eq {api : PanApi} {tok : String} {r1 r2 : PanInRow}
    (hp : r1.pan = r2.pan) :
    resultFields (panRowOutPure api tok r1) = resultFields (panRowOutPure api tok r2) := by
  unfold panRowOutPure panFieldsOf panMissingRow panNoDataRow
  rw [hp]
  by_cases hm : cellMissing r2.pan = true
  · simp [hm, resultFields]
  · rw [if_neg hm, if_neg hm]
    by_cases ht : (pureVerifyPan api r2.pan tok).isTruthy = true
    · simp [ht, resultFields]
    · simp [ht, resultFields]

theorem panRowOutPure_missing {api : PanApi} {tok : String} {row : PanInRow}
    (h : cellMissing row.pan = true) :
    panRowOutPure api tok row = panMissingRow row := by
  rw [panRowOutPure, if_pos h]

theorem panRowOutPure_nodata {api : PanApi} {tok : String} {row : PanInRow}
    (hm : cellMissing row.pan = false)
    (ht : (pureVerifyPan api row.pan tok).isTruthy = false) :
    panRowOutPure api tok row = panNoDataRow row := by
  rw [panRowOutPure, if_neg (by rw [hm]; exact Bool.false_ne_true),
    panFieldsOf, if_neg (by rw [ht]; exact Bool.false_ne_true)]

theorem panRowOutPure_keys (api : PanApi) (tok : String) (row : PanInRow) :
    (panRowOutPure api tok row).sno = row.sno ∧ (panRowOutPure api tok row).pan = row.pan := by
  unfold panRowOutPure panFieldsOf panMissingRow panNoDataRow
  by_cases hm : cellMissing row.pan = true
  · simp [hm]
  · rw [if_neg hm]
    by_cases ht : (pureVerifyPan api row.pan tok).isTruthy = true
    · simp [ht]
    · simp [ht]

/-- Claim C2: a row whose `pan` cell is NaN, empty, or whitespace-only after
stripping is emitted as valid=false with message "PAN is missing." and the
session state — including the transport-call log — is returned unchanged:
no network call is made for that row. -/
theorem C2_missing_identifier_short_circuits (api : PanApi) (tok : String) (st : PanSt)
    (row : PanInRow) (h : cellMissing row.pan = true) :
    processPanRow api tok st row =
      .ok ({ sno := row.sno, pan := row.pan, valid := Json.bool false,
             category := Json.str "", name := Json.str "", aadhaarLinked := Json.str "",
             message := Json.str "PAN is missing." }, st) := by
  rw [processPanRow, if_pos h]
  rfl

/-- Claim C2 witness: the spec scenario — input row with sno 1 and an empty
pan, fresh session state; the output row is exactly as the claim states it
and the call log stays empty. -/
theorem C2_witness :
    processPanRow (fun _ _ => .ok (Json.obj [])) "T" { cache := [], calls := [] }
      ⟨Json.num 1, Json.str ""⟩ =
      .ok ({ sno := Json.num 1, pan := Json.str "", valid := Json.bool false,
             category := Json.str "", name := Json.str "", aadhaarLinked := Json.str "",
             message := Json.str "PAN is missing." }, { cache := [], calls := [] }) :=
  C2_missing_identifier_short_circuits _ _ _ _ (by decide)

/-- Claim C3: in one batch run (fresh session state) the underlying
transport is invoked at most once per memo key; the key of every
non-missing row really was called when credentials are present; and any two
rows carrying the same `pan` receive identical result columns. -/
theorem C3_cache_one_call_per_key (api : PanApi) (tok : String) (rows : List PanInRow)
    (outs : List PanOutRow) (st2 : PanSt)
    (h : processPanRows api tok rows { cache := [], calls := [] } = .ok (outs, st2)) :
    (∀ k, keyCount st2.calls k ≤ 1) ∧
    outs.length = rows.length ∧
    (∀ i j (hi : i < rows.length) (hj : j < rows.length)
        (hio : i < outs.length) (hjo : j < outs.length),
      rows[i].pan = rows[j].pan →
      resultFields outs[i] = resultFields outs[j]) ∧
    (tok ≠ "" → ∀ i (hi : i < rows.length), cellMissing rows[i].pan = false →
      (rows[i].pan, tok) ∈ st2.calls) := by
  obtain ⟨hmap, hinv2, -, -, hcached⟩ := processPanRows_ok_spec (panInv_init api tok) h
  subst hmap
  refine ⟨hinv2.callsOnce, by simp, ?_, ?_⟩
  · intro i j hi hj hio hjo hp
    simp only [List.getElem_map]
    exact resultFields_pure_eq hp
  · intro hne i hi hmf
    have hsome := hcached rows[i] (List.getElem_mem hi) hmf
    cases hv : cacheFind st2.cache (rows[i].pan, tok) with
    | none => rw [hv] at hsome; simp at hsome
    | some v => exact hinv2.cachedCalled _ (cacheFind_mem hv) hne

/-- Transport stub for the C3 witness. -/
def c3api : PanApi := fun _ _ => .ok (Json.obj [("valid", Json.bool true)])

/-- Batch with the same PAN in both rows, for the C3 witness. -/
def c3rows : List PanInRow :=
  [⟨Json.num 1, Json.str "AAAPA1234A"⟩, ⟨Json.num 2, Json.str "AAAPA1234A"⟩]

/-- Output table of the C3 witness batch. -/
def c3outs : List PanOutRow :=
  [{ sno := Json.num 1, pan := Json.str "AAAPA1234A", valid := Json.bool true,
     category := Json.str "", name := Json.str "", aadhaarLinked := Json.str "",
     message := Json.str "" },
   { sno := Json.num 2, pan := Json.str "AAAPA1234A", valid := Json.bool true,
     category := Json.str "", name := Json.str "", aadhaarLinked := Json.str "",
     message := Json.str "" }]

/-- Final session state of the C3 witness batch: one cache entry, one call. -/
def c3st : PanSt :=
  { cache := [((Json.str "AAAPA1234A", "T"), Json.obj [("valid", Json.bool true)])],
    calls := [(Json.str "AAAPA1234A", "T")] }

/-- Claim C3 witness: a repeated identifier in one batch leads to a single
recorded transport call and identical result columns for both rows. -/
theorem C3_witness :
    (∀ k, keyCount c3st.calls k ≤ 1) ∧
    c3outs.length = c3rows.length ∧
    (∀ i j (hi : i < c3rows.length) (hj : j < c3rows.length)
        (hio : i < c3outs.length) (hjo : j < c3outs.length),
      c3rows[i].pan = c3rows[j].pan →
      resultFields c3outs[i] = resultFields c3outs[j]) ∧
    ("T" ≠ "" → ∀ i (hi : i < c3rows.length), cellMissing c3rows[i].pan = false →
      (c3rows[i].pan, "T") ∈ c3st.calls) :=
  C3_cache_one_call_per_key c3api "T" c3rows c3outs c3st (by decide)

/-- Claim C6: when the transport raises one of the caught exception classes
for a row's key, `verify_pan` returns the empty dict instead of raising;
in any batch that completes, that row is recorded with valid=false and
message "No data returned from API." and every other row still gets its
own output row (the loop continues past the failure). -/
theorem C6_transport_failure_is_row_local (api : PanApi) (tok : String)
    (rows : List PanInRow) (outs : List PanOutRow) (i : Nat) (hi : i < rows.length)
    (hm : cellMissing rows[i].pan = false)
    (herr : ∃ e, api rows[i].pan tok = .error e)
    (h : process_pan_verification api tok rows = some outs) :
    (verify_pan api rows[i].pan tok []).1 = Json.obj [] ∧
    outs.length = rows.length ∧
    ∃ hio : i < outs.length,
      outs[i].valid = Json.bool false ∧
      outs[i].message = Json.str "No data returned from API." := by
  obtain ⟨e, he⟩ := herr
  have hpure : pureVerifyPan api rows[i].pan tok = Json.obj [] := by
    unfold pureVerifyPan
    by_cases htok : tok = ""
    · rw [if_pos htok]
    · rw [if_neg htok, he]
  unfold process_pan_verification at h
  cases hrun : processPanRows api tok rows { cache := [], calls := [] } with
  | error e2 => simp [hrun] at h
  | ok q =>
    obtain ⟨outs2, st2⟩ := q
    simp only [hrun, Option.some.injEq] at h
    subst h
    obtain ⟨hmap, -, -, -, -⟩ := processPanRows_ok_spec (panInv_init api tok) hrun
    subst hmap
    have hio : i < (List.map (panRowOutPure api tok) rows).length := by simpa using hi
    refine ⟨by rw [verify_pan_fst, hpure], by simp, hio, ?_, ?_⟩
    · simp only [List.getElem_map]
      rw [panRowOutPure_nodata hm (by rw [hpure]; rfl)]
      rfl
    · simp only [List.getElem_map]
      rw [panRowOutPure_nodata hm (by rw [hpure]; rfl)]
      rfl

/-- Transport stub for the C6 witness: raises a connection error for the
identifier "BAD", succeeds for every other identifier. -/
def c6api : PanApi := fun p _ =>
  if p = Json.str "BAD" then .error "ConnectionError"
  else .ok (Json.obj [("valid", Json.bool true)])

/-- Three-row batch of the C6 witness; row 2 hits the failing identifier. -/
def c6rows : List PanInRow :=
  [⟨Json.num 1, Json.str "AAAPA1234A"⟩, ⟨Json.num 2, Json.str "BAD"⟩,
   ⟨Json.num 3, Json.str "CCCPC1234C"⟩]

/-- Output table of the C6 witness batch: the failing row is marked and the
batch continued to row 3. -/
def c6outs : List PanOutRow :=
  [{ sno := Json.num 1, pan := Json.str "AAAPA1234A", valid := Json.bool true,
     category := Json.str "", name := Json.str "", aadhaarLinked := Json.str "",
     message := Json.str "" },
   { sno := Json.num 2, pan := Json.str "BAD", valid := Json.bool false,
     category := Json.str "", name := Json.str "", aadhaarLinked := Json.str "",
     message := Json.str "No data returned from API." },
   { sno := Json.num 3, pan := Json.str "CCCPC1234C", valid := Json.bool true,
     category := Json.str "", name := Json.str "", aadhaarLinked := Json.str "",
     message := Json.str "" }]

/-- Claim C6 witness: the spec scenario — a simulated connection error on
row 2 yields valid=false / "No data returned from API." there, while the
batch continues to row 3. -/
theorem C6_witness :
    (verify_pan c6api (c6rows.get ⟨1, by decide⟩).pan "T" []).1 = Json.obj [] ∧
    c6outs.length = c6rows.length ∧
    ∃ hio : 1 < c6outs.length,
      (c6outs.get ⟨1, hio⟩).valid = Json.bool false ∧
      (c6outs.get ⟨1, hio⟩).message = Json.str "No data returned from API." :=
  C6_transport_failure_is_row_local c6api "T" c6rows c6outs 1 (by decide) (by decide)
    ⟨"ConnectionError", by decide⟩ (by decide)

/-! ## MCA company master data (reports/1__MCA Operations.py) -/

/-- The `expected_keys` list of `process_mca_company_master_data`
(lines 119-130; "active" genuinely appears twice in the source list). -/
def mcaExpectedKeys : List String :=
  ["valid", "cin", "llpin", "fllpin", "fcrn", "reg", "active", "businessName",
   "rocCode", "registrationNumber", "category", "subCategory", "class",
   "authorizedCapital", "paidCapital", "incorporatedDate", "registeredAddress",
   "email", "listed", "lastAGMDate", "lastBSDate", "active", "partners",
   "designatedPartners", "previousName", "obligation", "industryDivision",
   "industrySection", "incorporatedCountry", "shareCapital", "officeType",
   "companyType", "type", "status", "inc22AFiled", "soatDate",
   "regionalDirector", "region", "suspendedAtStockExchange", "insolvencyStatus",
   "subscribedCapital", "directorsAndSignatories", "charges", "efilings",
   "indexId", "updated", "message"]

/-- One parsed input row (columns `sno`, `regInput`). -/
structure McaInRow where
  sno : Json
  regInput : Json
deriving DecidableEq, Repr

/-- One primary output row: the two input columns plus the result cells
(initialized to None for every expected key, then overwritten; lookups use
the last binding, modelling in-place dataframe writes). -/
structure McaPrimaryRow where
  sno : Json
  regInput : Json
  cells : List (String × Json)
deriving DecidableEq, Repr

/-- All expected-key cells as freshly initialized None columns (lines 133-135). -/
def mcaNullCells : List (String × Json) := mcaExpectedKeys.map (fun k => (k, Json.null))

/-- The failure row shapes of lines 144-148 and 162-165: only `valid` and
`message` are written. -/
def mcaFailRow (row : McaInRow) (msg : String) : McaPrimaryRow :=
  { sno := row.sno, regInput := row.regInput,
    cells := mcaNullCells ++ [("valid", Json.bool false), ("message", Json.str msg)] }

/-- One expanded row (line 159): the tag dict entries first, then the
sub-object's own bindings, which therefore overwrite the tags on lookup. -/
def mcaExpandedRow (sno cin : Json) (subsno : Nat) (dnFields : List (String × Json)) :
    List (String × Json) :=
  [("sno", sno), ("regInput", cin), ("subsno", Json.num subsno)] ++ dnFields

/-- The loop `for subsno, dn in enumerate(dns, start=1)` (lines 158-160),
with `i0` the number of elements already consumed. -/
def mcaExpandRowsAux (sno cin : Json) (i0 : Nat) :
    List Json → Except String (List (List (String × Json)))
  | [] => .ok []
  | dn :: rest =>
    match pyKwargs dn with
    | .error e => .error e
    | .ok gs =>
      match mcaExpandRowsAux sno cin (i0 + 1) rest with
      | .error e => .error e
      | .ok tl => .ok (mcaExpandedRow sno cin (i0 + 1) gs :: tl)

/-- Expansion of one payload's `directorsAndSignatories` list. -/
def mcaExpandRows (sno cin : Json) (dns : List Json) :
    Except String (List (List (String × Json))) :=
  mcaExpandRowsAux sno cin 0 dns

/-- The per-row body of `process_mca_company_master_data` (lines 138-165).
`oracle` stands for `cache_mca_company_master_data` with the page's fixed
option arguments; for a deterministic client the memo layer is
value-transparent (modelled explicitly in the PAN embedding). -/
def processMcaCompanyRow (oracle : Json → Json) (row : McaInRow) :
    Except String (McaPrimaryRow × List (List (String × Json))) :=
  if cellMissing row.regInput then .ok (mcaFailRow row "CIN is missing.", [])
  else
    let res := oracle row.regInput
    if res.isTruthy then
      match map_response_to_df res mcaExpectedKeys with
      | .error e => .error e
      | .ok mapped =>
        match pyGetD res "directorsAndSignatories" (Json.arr []) with
        | .error e => .error e
        | .ok dnsJ =>
          match pyIterate dnsJ with
          | .error e => .error e
          | .ok dns =>
            match mcaExpandRows row.sno row.regInput dns with
            | .error e => .error e
            | .ok exp =>
              .ok ({ sno := row.sno, regInput := row.regInput,
                     cells := mcaNullCells ++ mapped }, exp)
    else .ok (mcaFailRow row "No data returned from API.", [])

/-- The whole row loop, accumulating primary rows and expanded rows in
input order (lines 136-165). -/
def processMcaCompanyRows (oracle : Json → Json) :
    List McaInRow → Except String (List McaPrimaryRow × List (List (String × Json)))
  | [] => .ok ([], [])
  | row :: rows =>
    match processMcaCompanyRow oracle row with
    | .error e => .error e
    | .ok p =>
      match processMcaCompanyRows oracle rows with
      | .error e => .error e
      | .ok ps => .ok (p.1 :: ps.1, p.2 ++ ps.2)

/-- A primary row as a dict: pinned input columns first, then result cells. -/
def McaPrimaryRow.toCells (r : McaPrimaryRow) : List (String × Json) :=
  [("sno", r.sno), ("regInput", r.regInput)] ++ r.cells

/-- Key agreement of two dict-rows on every join key. -/
def rowKeyMatches (keys : List String) (l r : List (String × Json)) : Bool :=
  keys.all (fun k => decide (dictFind l k = dictFind r k))

/-- One left row of `pd.merge(df, expanded_df, on=keys, how="left")`: all
matching right rows appended (minus the join keys), or one padded row with
None in the right-only columns when nothing matches. -/
def joinOneRow (keys : List String) (rightCols : List String)
    (l : List (String × Json)) (rights : List (List (String × Json))) :
    List (List (String × Json)) :=
  let ms := rights.filter (fun r => rowKeyMatches keys l r)
  if ms.isEmpty then
    [l ++ (rightCols.filter (fun c => decide (c ∉ keys))).map (fun c => (c, Json.null))]
  else ms.map (fun r => l ++ r.filter (fun f => decide (f.1 ∉ keys)))

/-- The left merge: left rows in order, each replaced by its join group. -/
def leftJoin (keys : List String) (rightCols : List String)
    (lefts rights : List (List (String × Json))) : List (List (String × Json)) :=
  (lefts.map (fun l => joinOneRow keys rightCols l rights)).flatten

/-- Column list of `pd.DataFrame(expanded_rows)`, with the fixed fallback
columns of line 169 when no expanded rows exist. -/
def mcaExpandedCols (exps : List (List (String × Json))) : List String :=
  if exps.isEmpty then ["sno", "regInput", "subsno"]
  else (exps.flatMap (fun r => r.map (fun f => f.1))).dedup

/-- `process_mca_company_master_data` (lines 99-179) after file and column
validation: the row loop followed by the left merge on sno and regInput
(line 172); the function-level handler turns any escaped exception into
`None`.  Both the primary table and the merged table are exposed. -/
def process_mca_company_master_data (oracle : Json → Json) (rows : List McaInRow) :
    Option (List McaPrimaryRow × List (List (String × Json))) :=
  match processMcaCompanyRows oracle rows with
  | .error _ => none
  | .ok res =>
    some (res.1, leftJoin ["sno", "regInput"] (mcaExpandedCols res.2)
      (res.1.map McaPrimaryRow.toCells) res.2)

/-! ### Lemmas about expansion and the left merge -/

theorem dictFind_append (xs ys : List (String × Json)) (k : String) :
    dictFind (xs ++ ys) k =
      match dictFind ys k with
      | some v => some v
      | none => dictFind xs k := by
  induction xs with
  | nil =>
    simp only [List.nil_append, dictFind]
    cases hy : dictFind ys k <;> simp
  | cons e rest ih =>
    obtain ⟨k2, v⟩ := e
    simp only [List.cons_append, dictFind, ih]
    cases hy : dictFind ys k <;> cases hr : dictFind rest k <;> simp [ih, hy, hr]

theorem mcaExpandRowsAux_spec (sno cin : Json) :
    ∀ (dns : List Json) (i0 : Nat),
    (∀ dn ∈ dns, ∃ gs, dn = Json.obj gs) →
    ∃ exp, mcaExpandRowsAux sno cin i0 dns = .ok exp ∧ exp.length = dns.length ∧
      ∀ i (hie : i < exp.length) (hid : i < dns.length),
        ∃ gs, pyKwargs dns[i] = .ok gs ∧
          exp[i] = mcaExpandedRow sno cin (i0 + i + 1) gs := by
  intro dns
  induction dns with
  | nil =>
    intro i0 _
    exact ⟨[], rfl, rfl, by intro i hie; simp at hie⟩
  | cons dn rest ih =>
    intro i0 h
    obtain ⟨gs, hgs⟩ := h dn (List.mem_cons_self _ _)
    obtain ⟨exp, hexp, hlen, hidx⟩ := ih (i0 + 1) (fun d hd => h d (List.mem_cons_of_mem _ hd))
    refine ⟨mcaExpandedRow sno cin (i0 + 1) gs :: exp, ?_, by simp [hlen], ?_⟩
    · rw [mcaExpandRowsAux, hgs]
      simp only [pyKwargs, hexp]
    · intro i hie hid
      cases i with
      | zero =>
        refine ⟨gs, by simp [hgs, pyKwargs], ?_⟩
        simp
      | succ n =>
        have h1 : n < exp.length := by simpa using hie
        have h2 : n < rest.length := by simpa using hid
        obtain ⟨gs2, hk, he⟩ := hidx n h1 h2
        refine ⟨gs2, by simpa using hk, ?_⟩
        simp only [List.getElem_cons_succ]
        rw [he]
        have harith : i0 + 1 + n + 1 = i0 + (n + 1) + 1 := by omega
        rw [harith]

theorem processMcaCompanyRow_keys {oracle : Json → Json} {row : McaInRow}
    {p : McaPrimaryRow × List (List (String × Json))}
    (h : processMcaCompanyRow oracle row = .ok p) :
    p.1.sno = row.sno ∧ p.1.regInput = row.regInput := by
  unfold processMcaCompanyRow at h
  by_cases hm : cellMissing row.regInput = true
  · rw [if_pos hm] at h
    cases h
    exact ⟨rfl, rfl⟩
  · rw [if_neg hm] at h
    by_cases ht : (oracle row.regInput).isTruthy = true
    · rw [if_pos ht] at h
      cases h1 : map_response_to_df (oracle row.regInput) mcaExpectedKeys with
      | error e => simp [h1] at h
      | ok mapped =>
        simp only [h1] at h
        cases h2 : pyGetD (oracle row.regInput) "directorsAndSignatories" (Json.arr []) with
        | error e => simp [h2] at h
        | ok dnsJ =>
          simp only [h2] at h
          cases h3 : pyIterate dnsJ with
          | error e => simp [h3] at h
          | ok dns =>
            simp only [h3] at h
            cases h4 : mcaExpandRows row.sno row.regInput dns with
            | error e => simp [h4] at h
            | ok exp =>
              simp only [h4, Except.ok.injEq] at h
              rw [← h]
              exact ⟨rfl, rfl⟩
    · rw [if_neg ht] at h
      cases h
      exact ⟨rfl, rfl⟩

theorem processMcaCompanyRows_spec {oracle : Json → Json} :
    ∀ {rows : List McaInRow} {ps : List McaPrimaryRow}
      {exps : List (List (String × Json))},
    processMcaCompanyRows oracle rows = .ok (ps, exps) →
    ps.length = rows.length ∧
    ∀ i (hi : i < rows.length) (hip : i < ps.length),
      ps[i].sno = rows[i].sno ∧ ps[i].regInput = rows[i].regInput := by
  intro rows
  induction rows with
  | nil =>
    intro ps exps h
    simp only [processMcaCompanyRows, Except.ok.injEq, Prod.mk.injEq] at h
    obtain ⟨h1, h2⟩ := h
    subst h1
    exact ⟨rfl, by intro i hi; simp at hi⟩
  | cons row rows ih =>
    intro ps exps h
    simp only [processMcaCompanyRows] at h
    cases h1 : processMcaCompanyRow oracle row with
    | error e => simp [h1] at h
    | ok p =>
      simp only [h1] at h
      cases h2 : processMcaCompanyRows oracle rows with
      | error e => simp [h2] at h
      | ok q =>
        obtain ⟨ps2, exps2⟩ := q
        simp only [h2, Except.ok.injEq, Prod.mk.injEq] at h
        obtain ⟨hps, hexps⟩ := h
        subst hps
        obtain ⟨hk1, hk2⟩ := processMcaCompanyRow_keys h1
        obtain ⟨hlen, hidx⟩ := ih h2
        refine ⟨by simp [hlen], ?_⟩
        intro i hi hip
        cases i with
        | zero => exact ⟨hk1, hk2⟩
        | succ n =>
          have hn1 : n < rows.length := by simpa using hi
          have hn2 : n < ps2.length := by simpa using hip
          simpa using hidx n hn1 hn2

theorem joinOneRow_groups (keys rightCols : List String)
    (l : List (String × Json)) (rights : List (List (String × Json))) :
    joinOneRow keys rightCols l rights ≠ [] ∧
    ∀ m ∈ joinOneRow keys rightCols l rights, ∃ rest, m = l ++ rest := by
  unfold joinOneRow
  by_cases he : (rights.filter (fun r => rowKeyMatches keys l r)).isEmpty = true
  · rw [if_pos he]
    exact ⟨by simp, by intro m hm; simp at hm; exact ⟨_, hm⟩⟩
  · rw [if_neg he]
    constructor
    · intro hc
      rw [List.map_eq_nil_iff] at hc
      rw [hc] at he
      simp at he
    · intro m hm
      rw [List.mem_map] at hm
      obtain ⟨r, _, hr⟩ := hm
      exact ⟨_, hr.symm⟩

theorem mcaExpandRowsAux_ok (sno cin : Json) :
    ∀ (dns : List Json) (i0 : Nat) (exp : List (List (String × Json))),
    mcaExpandRowsAux sno cin i0 dns = .ok exp →
    exp.length = dns.length ∧
    ∀ i (hie : i < exp.length) (hid : i < dns.length),
      ∃ gs, pyKwargs dns[i] = .ok gs ∧
        exp[i] = mcaExpandedRow sno cin (i0 + i + 1) gs := by
  intro dns
  induction dns with
  | nil =>
    intro i0 exp h
    simp only [mcaExpandRowsAux, Except.ok.injEq] at h
    subst h
    exact ⟨rfl, by intro i hie; simp at hie⟩
  | cons dn rest ih =>
    intro i0 exp h
    simp only [mcaExpandRowsAux] at h
    cases h1 : pyKwargs dn with
    | error e => simp [h1] at h
    | ok gs =>
      simp only [h1] at h
      cases h2 : mcaExpandRowsAux sno cin (i0 + 1) rest with
      | error e => simp [h2] at h
      | ok tl =>
        simp only [h2, Except.ok.injEq] at h
        subst h
        obtain ⟨hlen, hidx⟩ := ih (i0 + 1) tl h2
        refine ⟨by simp [hlen], ?_⟩
        intro i hie hid
        cases i with
        | zero => exact ⟨gs, by simpa using h1, by simp⟩
        | succ n =>
          have hn1 : n < tl.length := by simpa using hie
          have hn2 : n < rest.length := by simpa using hid
          obtain ⟨gs2, hk, he⟩ := hidx n hn1 hn2
          refine ⟨gs2, by simpa using hk, ?_⟩
          simp only [List.getElem_cons_succ]
          rw [he]
          have harith : i0 + 1 + n + 1 = i0 + (n + 1) + 1 := by omega
          rw [harith]

/-- Claim C8: for every batch the row loop completes on, each input row has
exactly one primary output row, carrying that input's sno and regInput, in
the same order as the input records; and the left-joined table is exactly
the concatenation, in that same order, of one nonempty join group per
primary row, every row of which extends that primary row's columns. -/
theorem C8_one_primary_row_per_input (oracle : Json → Json)
    (rows : List McaInRow) (ps : List McaPrimaryRow)
    (merged : List (List (String × Json)))
    (h : process_mca_company_master_data oracle rows = some (ps, merged)) :
    ps.length = rows.length ∧
    (∀ i (hi : i < rows.length) (hip : i < ps.length),
      ps[i].sno = rows[i].sno ∧ ps[i].regInput = rows[i].regInput) ∧
    ∃ groups : List (List (List (String × Json))),
      merged = groups.flatten ∧ groups.length = ps.length ∧
      ∀ i (hip : i < ps.length) (hig : i < groups.length),
        groups[i] ≠ [] ∧ ∀ m ∈ groups[i], ∃ rest, m = ps[i].toCells ++ rest := by
  unfold process_mca_company_master_data at h
  cases hrun : processMcaCompanyRows oracle rows with
  | error e => simp [hrun] at h
  | ok q =>
    obtain ⟨ps0, exps⟩ := q
    simp only [hrun, Option.some.injEq, Prod.mk.injEq] at h
    obtain ⟨hps, hmerged⟩ := h
    subst hps
    obtain ⟨hlen, hidx⟩ := processMcaCompanyRows_spec hrun
    refine ⟨hlen, hidx, ?_⟩
    refine ⟨ps0.map (fun p => joinOneRow ["sno", "regInput"] (mcaExpandedCols exps)
      p.toCells exps), ?_, by simp, ?_⟩
    · rw [← hmerged]
      unfold leftJoin
      rw [List.map_map]
      rfl
    · intro i hip hig
      simp only [List.getElem_map]
      exact joinOneRow_groups _ _ _ _

/-- Input row of the C8 witness. -/
def c8row : McaInRow := ⟨Json.num 1, Json.str "U74999DL2015PTC296321"⟩

/-- Primary table of the C8 witness batch (the stub client returns the
empty dict, so the single row is marked "No data returned from API."). -/
def c8ps : List McaPrimaryRow := [mcaFailRow c8row "No data returned from API."]

/-- Merged table of the C8 witness batch. -/
def c8merged : List (List (String × Json)) :=
  leftJoin ["sno", "regInput"] ["sno", "regInput", "subsno"]
    (c8ps.map McaPrimaryRow.toCells) []

/-- Claim C8 witness: a one-row batch against an empty-response client. -/
theorem C8_witness :
    c8ps.length = [c8row].length ∧
    (∀ i (hi : i < [c8row].length) (hip : i < c8ps.length),
      c8ps[i].sno = [c8row][i].sno ∧ c8ps[i].regInput = [c8row][i].regInput) ∧
    ∃ groups : List (List (List (String × Json))),
      c8merged = groups.flatten ∧ groups.length = c8ps.length ∧
      ∀ i (hip : i < c8ps.length) (hig : i < groups.length),
        groups[i] ≠ [] ∧ ∀ m ∈ groups[i], ∃ rest, m = c8ps[i].toCells ++ rest :=
  C8_one_primary_row_per_input (fun _ => Json.obj []) [c8row] c8ps c8merged (by decide)

/-- Stub client for the C5 counterexample: one director sub-object that
itself contains an `sno` key. -/
def c5oracle : Json → Json := fun _ =>
  Json.obj [("valid", Json.bool true),
            ("directorsAndSignatories", Json.arr [Json.obj [("sno", Json.num 99)]])]

/-- Parent row of the C5 counterexample (serial 1). -/
def c5row : McaInRow := ⟨Json.num 1, Json.str "U74999DL2015PTC296321"⟩

/-- Claim C5 counterexample: the payload's list has N = 1 elements and
exactly 1 expanded row is produced, but that row does NOT carry the parent
serial 1 — the sub-object's own `sno` binding (99) wins the dict merge of
line 159, so "each carrying the parent row's sno" fails as stated. -/
theorem C5_counterexample :
    (processMcaCompanyRow c5oracle c5row).toOption.map
        (fun p => (p.2.length, p.2.map (fun m => dictFind m "sno"))) =
      some (1, [some (Json.num 99)]) ∧
    ¬ (some (Json.num 99) = some (Json.num 1)) := ⟨by decide, by decide⟩

/-- Claim C5 (amended): for a successful object payload whose
directorsAndSignatories value is a list of N sub-objects none of which
itself binds the keys sno, subsno or regInput, exactly N expanded rows are
produced, each carrying the parent's sno and regInput and a 1-based subsno
in 1..N; an empty (or absent, via the `.get` default) list yields zero
expanded rows; and in the left merge every primary row is still present —
at least one merged row extends it — whether or not any expansion row
matches it. -/
theorem C5_expansion_completeness :
    (∀ (oracle : Json → Json) (row : McaInRow) (fs : List (String × Json)) (dns : List Json),
      cellMissing row.regInput = false →
      oracle row.regInput = Json.obj fs →
      (Json.obj fs).isTruthy = true →
      (dictFind fs "directorsAndSignatories").getD (Json.arr []) = Json.arr dns →
      (∀ dn ∈ dns, ∃ gs, dn = Json.obj gs ∧ dictFind gs "sno" = none ∧
        dictFind gs "subsno" = none ∧ dictFind gs "regInput" = none) →
      ∃ p exp, processMcaCompanyRow oracle row = .ok (p, exp) ∧
        p.sno = row.sno ∧ p.regInput = row.regInput ∧
        exp.length = dns.length ∧
        (dns = [] → exp = []) ∧
        ∀ i (hie : i < exp.length),
          dictFind exp[i] "sno" = some row.sno ∧
          dictFind exp[i] "regInput" = some row.regInput ∧
          dictFind exp[i] "subsno" = some (Json.num (i + 1)) ∧
          1 ≤ i + 1 ∧ i + 1 ≤ dns.length) ∧
    (∀ (keys rightCols : List String) (l : List (String × Json))
        (rights : List (List (String × Json))),
      ∃ m, m ∈ joinOneRow keys rightCols l rights ∧ ∃ rest, m = l ++ rest) := by
  constructor
  · intro oracle row fs dns hm horacle ht hdns hsub
    obtain ⟨exp, hexp, hlen, hidx⟩ := mcaExpandRowsAux_spec row.sno row.regInput dns 0
      (fun dn hdn => ((hsub dn hdn).imp (fun gs hgs => hgs.1)))
    have heq : processMcaCompanyRow oracle row =
        .ok ({ sno := row.sno, regInput := row.regInput,
               cells := mcaNullCells ++ mcaExpectedKeys.map
                 (fun k => (k, (dictFind fs k).getD (Json.str ""))) }, exp) := by
      unfold processMcaCompanyRow
      rw [if_neg (by rw [hm]; exact Bool.false_ne_true), horacle, if_pos ht,
        map_response_obj]
      simp only [pyGetD, hdns, pyIterate]
      rw [show mcaExpandRows row.sno row.regInput dns = .ok exp from hexp]
    refine ⟨_, exp, heq, rfl, rfl, hlen, ?_, ?_⟩
    · intro hnil
      subst hnil
      exact List.length_eq_zero.mp hlen
    · intro i hie
      have hid : i < dns.length := hlen ▸ hie
      obtain ⟨gs, hk, he⟩ := hidx i hie hid
      obtain ⟨gs2, hobj, h1, h2, h3⟩ := hsub dns[i] (List.getElem_mem hid)
      have hgs : gs = gs2 := by
        rw [hobj] at hk
        simpa [pyKwargs] using hk.symm
      subst hgs
      rw [he]
      unfold mcaExpandedRow
      rw [dictFind_append, dictFind_append, dictFind_append, h1, h2, h3]
      refine ⟨by simp [dictFind], by simp [dictFind], ?_, by omega, by omega⟩
      simp only [dictFind]
      norm_num
  · intro keys rightCols l rights
    obtain ⟨hne, hpre⟩ := joinOneRow_groups keys rightCols l rights
    obtain ⟨m, hm⟩ := List.exists_mem_of_ne_nil _ hne
    exact ⟨m, hm, hpre m hm⟩

/-- Payload fields of the C5 witness: one director sub-object with only a
`din` key. -/
def c5wfs : List (String × Json) :=
  [("valid", Json.bool true),
   ("directorsAndSignatories", Json.arr [Json.obj [("din", Json.num 7)]])]

/-- Parent row of the C5 witness. -/
def c5wrow : McaInRow := ⟨Json.num 2, Json.str "L11111MH1999PLC012345"⟩

/-- The directorsAndSignatories list of the C5 witness payload. -/
def c5wdns : List Json := [Json.obj [("din", Json.num 7)]]

/-- Claim C5 witness: a one-element director list expands to exactly one
row tagged with the parent serial and subsno 1, and a left-join group
always retains its primary row. -/
theorem C5_witness :
    (∃ p exp, processMcaCompanyRow (fun _ => Json.obj c5wfs) c5wrow = .ok (p, exp) ∧
      p.sno = c5wrow.sno ∧ p.regInput = c5wrow.regInput ∧
      exp.length = c5wdns.length ∧
      (c5wdns = [] → exp = []) ∧
      ∀ i (hie : i < exp.length),
        dictFind exp[i] "sno" = some c5wrow.sno ∧
        dictFind exp[i] "regInput" = some c5wrow.regInput ∧
        dictFind exp[i] "subsno" = some (Json.num (i + 1)) ∧
        1 ≤ i + 1 ∧ i + 1 ≤ c5wdns.length) ∧
    (∃ m, m ∈ joinOneRow ["sno", "regInput"] ["sno", "regInput", "subsno"]
        [("sno", Json.num 1)] [] ∧ ∃ rest, m = [("sno", Json.num 1)] ++ rest) :=
  ⟨C5_expansion_completeness.1 (fun _ => Json.obj c5wfs) c5wrow c5wfs c5wdns
      (by decide) rfl (by decide) (by decide)
      (by
        intro dn hdn
        simp only [c5wdns, List.mem_singleton] at hdn
        subst hdn
        exact ⟨[("din", Json.num 7)], rfl, by decide, by decide, by decide⟩),
    C5_expansion_completeness.2 ["sno", "regInput"] ["sno", "regInput", "subsno"]
      [("sno", Json.num 1)] []⟩

/-- One expanded row of the DL page (reports/5__Driving_License_Verification.py
line 276): the tag dict sno, dl_number, dob, subsno, then the category
sub-object's own bindings, which overwrite the tags on lookup. -/
def dlExpandedRow (sno dl dob : Json) (subsno : Nat)
    (catFields : List (String × Json)) : List (String × Json) :=
  [("sno", sno), ("dl_number", dl), ("dob", dob), ("subsno", Json.num subsno)] ++ catFields

/-- Claim C10: expanded rows are the dict merge of the tag mapping with the
sub-object's fields, the sub-object's bindings taking precedence: when the
sub-object binds none of sno/subsno/parent-identifier the tags survive (sno
is the parent serial, subsno the 1-based position as produced by the
expansion loop), and when it does bind one of them its value overwrites the
tag — for both the MCA company page and the DL page. -/
theorem C10_expanded_row_merge_precedence :
    (∀ (sno cin : Json) (i : Nat) (gs : List (String × Json)),
      (dictFind gs "sno" = none →
        dictFind (mcaExpandedRow sno cin i gs) "sno" = some sno) ∧
      (dictFind gs "subsno" = none →
        dictFind (mcaExpandedRow sno cin i gs) "subsno" = some (Json.num i)) ∧
      (dictFind gs "regInput" = none →
        dictFind (mcaExpandedRow sno cin i gs) "regInput" = some cin) ∧
      (∀ v, dictFind gs "sno" = some v →
        dictFind (mcaExpandedRow sno cin i gs) "sno" = some v) ∧
      (∀ v, dictFind gs "subsno" = some v →
        dictFind (mcaExpandedRow sno cin i gs) "subsno" = some v) ∧
      (∀ v, dictFind gs "regInput" = some v →
        dictFind (mcaExpandedRow sno cin i gs) "regInput" = some v)) ∧
    (∀ (sno dl dob : Json) (i : Nat) (gs : List (String × Json)),
      (dictFind gs "sno" = none →
        dictFind (dlExpandedRow sno dl dob i gs) "sno" = some sno) ∧
      (dictFind gs "subsno" = none →
        dictFind (dlExpandedRow sno dl dob i gs) "subsno" = some (Json.num i)) ∧
      (∀ v, dictFind gs "sno" = some v →
        dictFind (dlExpandedRow sno dl dob i gs) "sno" = some v)) ∧
    (∀ (sno cin : Json) (i0 : Nat) (dns : List Json)
        (exp : List (List (String × Json))),
      mcaExpandRowsAux sno cin i0 dns = .ok exp →
      ∀ i (hie : i < exp.length) (hid : i < dns.length),
        ∃ gs, pyKwargs dns[i] = .ok gs ∧
          exp[i] = mcaExpandedRow sno cin (i0 + i + 1) gs) := by
  refine ⟨?_, ?_, ?_⟩
  · intro sno cin i gs
    unfold mcaExpandedRow
    refine ⟨?_, ?_, ?_, ?_, ?_, ?_⟩
    · intro h; rw [dictFind_append, h]; simp [dictFind]
    · intro h; rw [dictFind_append, h]; simp [dictFind]
    · intro h; rw [dictFind_append, h]; simp [dictFind]
    · intro v h; rw [dictFind_append, h]
    · intro v h; rw [dictFind_append, h]
    · intro v h; rw [dictFind_append, h]
  · intro sno dl dob i gs
    unfold dlExpandedRow
    refine ⟨?_, ?_, ?_⟩
    · intro h; rw [dictFind_append, h]; simp [dictFind]
    · intro h; rw [dictFind_append, h]; simp [dictFind]
    · intro v h; rw [dictFind_append, h]
  · intro sno cin i0 dns exp h
    exact (mcaExpandRowsAux_ok sno cin dns i0 exp h).2

/-- Claim C10 witness: tags survive when the sub-object lacks the keys, a
sub-object `sno` overwrites the parent tag, and the expansion loop places
the 1-based position in subsno. -/
theorem C10_witness :
    (dictFind (mcaExpandedRow (Json.num 1) (Json.str "C1") 1 [("din", Json.num 7)])
        "sno" = some (Json.num 1)) ∧
    (dictFind (mcaExpandedRow (Json.num 1) (Json.str "C1") 1 [("sno", Json.num 99)])
        "sno" = some (Json.num 99)) ∧
    (dictFind (dlExpandedRow (Json.num 1) (Json.str "DL1") (Json.str "01-01-1990") 2
        [("code", Json.str "LMV")]) "sno" = some (Json.num 1)) ∧
    (∃ gs, pyKwargs (([Json.obj [("din", Json.num 7)]] : List Json)[0]) = .ok gs ∧
      ([mcaExpandedRow (Json.num 1) (Json.str "C1") 1 [("din", Json.num 7)]] :
        List (List (String × Json)))[0] =
        mcaExpandedRow (Json.num 1) (Json.str "C1") (0 + 0 + 1) gs) :=
  ⟨(C10_expanded_row_merge_precedence.1 (Json.num 1) (Json.str "C1") 1
      [("din", Json.num 7)]).1 (by decide),
   (C10_expanded_row_merge_precedence.1 (Json.num 1) (Json.str "C1") 1
      [("sno", Json.num 99)]).2.2.2.1 (Json.num 99) (by decide),
   (C10_expanded_row_merge_precedence.2.1 (Json.num 1) (Json.str "DL1")
      (Json.str "01-01-1990") 2 [("code", Json.str "LMV")]).1 (by decide),
   C10_expanded_row_merge_precedence.2.2 (Json.num 1) (Json.str "C1") 0
      [Json.obj [("din", Json.num 7)]]
      [mcaExpandedRow (Json.num 1) (Json.str "C1") 1 [("din", Json.num 7)]]
      (by decide) 0 (by decide) (by decide)⟩

/-! ## Court record check (reports/12__Court_Record_Check.py) -/

/-- Outcome of the court-record polling loop. -/
inductive CourtPollOutcome where
  | completed (output : Json)
  | errored (msg : Json)
  | timedOut
deriving DecidableEq, Repr

/-- The poll loop of lines 384-409 (`for attempt in range(max_retries)`).
`getResult n` is the decoded body of the (n+1)-th `get_court_record_result`
call (the empty dict when that call failed at the transport level);
`attempt` counts the queries already made and `fuel` the attempts left.
Returns the outcome together with the number of status queries performed. -/
def courtPollAux (getResult : Nat → Json) (attempt fuel : Nat) :
    Except String (CourtPollOutcome × Nat) :=
  match fuel with
  | 0 => .ok (.timedOut, attempt)
  | fuel + 1 =>
    let r := getResult attempt
    match pyGetD r "status" (Json.str "") with
    | .error e => .error e
    | .ok status =>
      if status = Json.str "COMPLETED" then
        match pyGetD r "output" (Json.obj []) with
        | .error e => .error e
        | .ok output => .ok (.completed output, attempt + 1)
      else if status = Json.str "ERRORED" then
        match pyGetD r "error" (Json.obj []) with
        | .error e => .error e
        | .ok errObj =>
          match pyGetD errObj "message" (Json.str "Unknown error.") with
          | .error e => .error e
          | .ok msg => .ok (.errored msg, attempt + 1)
      else courtPollAux getResult (attempt + 1) fuel

/-- `max_retries = 15` (line 382). -/
def courtMaxRetries : Nat := 15

/-- The whole polling phase for one submitted court-record job. -/
def courtPoll (getResult : Nat → Json) : Except String (CourtPollOutcome × Nat) :=
  courtPollAux getResult 0 courtMaxRetries

/-- The result columns initialized to None (lines 279-285). -/
def courtResultCols : List String :=
  ["valid", "finalRiskSummary", "casesCount", "records", "finalRiskLevel",
   "asyncId", "number"]

/-- Freshly initialized result cells. -/
def courtInitCells : List (String × Json) := courtResultCols.map (fun k => (k, Json.null))

/-- The seven-column failure write the page repeats (e.g. lines 296-304),
with the page's status text in the `number` column. -/
def courtFailCells (msg : String) : List (String × Json) :=
  [("valid", Json.bool false), ("finalRiskSummary", Json.str ""),
   ("casesCount", Json.num 0), ("records", Json.str ""),
   ("finalRiskLevel", Json.num 0), ("asyncId", Json.str ""),
   ("number", Json.str msg)]

/-- Python `items[0]`: first element of a list; anything else raises (a
truthy non-list either raises immediately or at the `.get` that follows). -/
def pyIndex0 : Json → Except String Json
  | .arr (x :: _) => .ok x
  | _ => .error "TypeError"

/-- The five `output.get` writes of the COMPLETED branch (lines 389-394);
they raise together when `output` is not a dict. -/
def courtCompletedCells (output : Json) : Except String (List (String × Json)) :=
  match output with
  | .obj _ => .ok
      [("valid", jsonGetTotal output "valid" (Json.bool false)),
       ("finalRiskSummary", jsonGetTotal output "finalRiskSummary" (Json.str "")),
       ("casesCount", jsonGetTotal output "casesCount" (Json.num 0)),
       ("records", jsonGetTotal output "records" (Json.arr [])),
       ("finalRiskLevel", jsonGetTotal output "finalRiskLevel" (Json.num 0))]
  | _ => .error "AttributeError"

/-- One row of `process_court_record_verification` from the tag check to the
end of the polling phase (lines 288-418).  `submitResp` is the decoded body
of the (memoized) search submission; the result is the row's result cells
(last write wins on lookup) and the number of status queries made. -/
def processCourtRow (tag submitResp : Json) (getResult : Nat → Json) :
    Except String (List (String × Json) × Nat) :=
  if cellMissing tag then
    .ok (courtInitCells ++ courtFailCells "Tag is missing.", 0)
  else if !submitResp.isTruthy then
    .ok (courtInitCells ++ courtFailCells "Search request failed.", 0)
  else
    match pyGetD submitResp "items" (Json.arr []) with
    | .error e => .error e
    | .ok items =>
      if !items.isTruthy then
        .ok (courtInitCells ++ courtFailCells "No items in response.", 0)
      else
        match pyIndex0 items with
        | .error e => .error e
        | .ok first =>
          match pyGetD first "_id" (Json.str "") with
          | .error e => .error e
          | .ok asyncId =>
            match pyGetD first "number" (Json.str "") with
            | .error e => .error e
            | .ok number =>
              if !asyncId.isTruthy then
                .ok (courtInitCells ++ courtFailCells "Async ID missing.", 0)
              else
                match courtPoll getResult with
                | .error e => .error e
                | .ok oc =>
                  match oc.1 with
                  | .completed output =>
                    match courtCompletedCells output with
                    | .error e => .error e
                    | .ok cc =>
                      .ok (courtInitCells ++ [("asyncId", asyncId), ("number", number)]
                        ++ cc, oc.2)
                  | .errored msg =>
                    .ok (courtInitCells ++ [("asyncId", asyncId), ("number", number)] ++
                      [("valid", Json.bool false), ("finalRiskSummary", Json.str ""),
                       ("casesCount", Json.num 0), ("records", Json.str ""),
                       ("finalRiskLevel", Json.num 0),
                       ("number", Json.str ("Error: " ++ pyStr msg))], oc.2)
                  | .timedOut =>
                    .ok (courtInitCells ++ [("asyncId", asyncId), ("number", number)] ++
                      [("valid", Json.bool false), ("finalRiskSummary", Json.str ""),
                       ("casesCount", Json.num 0), ("records", Json.str ""),
                       ("finalRiskLevel", Json.num 0),
                       ("number", Json.str "Search did not complete in time.")], oc.2)

/-! ## Driving-license check (reports/5__Driving_License_Verification.py) -/

/-- Outcome of the DL polling loop (the errored branch keeps only a log). -/
inductive DlPollOutcome where
  | completed (output : Json)
  | errored
  | timedOut
deriving DecidableEq, Repr

/-- The poll loop of lines 229-250 (`while attempt < max_attempts`): one
status query per iteration; `attempt` is incremented only on a non-terminal
status, so it equals the index of the next query.  Note `.get('status')`
defaults to None here, and the error message of an ERRORED poll is read
only for the log. -/
def dlPollAux (getResult : Nat → Json) (attempt fuel : Nat) :
    Except String (DlPollOutcome × Nat) :=
  match fuel with
  | 0 => .ok (.timedOut, attempt)
  | fuel + 1 =>
    let r := getResult attempt
    match pyGetD r "status" Json.null with
    | .error e => .error e
    | .ok status =>
      if status = Json.str "COMPLETED" then
        match pyGetD r "output" (Json.obj []) with
        | .error e => .error e
        | .ok output => .ok (.completed output, attempt + 1)
      else if status = Json.str "ERRORED" then
        match pyGetD r "error" (Json.obj []) with
        | .error e => .error e
        | .ok errObj =>
          match pyGetD errObj "message"
              (Json.str "An error occurred during verification.") with
          | .error e => .error e
          | .ok _ => .ok (.errored, attempt + 1)
      else dlPollAux getResult (attempt + 1) fuel

/-- `max_attempts = 20` (line 229). -/
def dlMaxAttempts : Nat := 20

/-- The whole polling phase for one initiated DL verification. -/
def dlPoll (getResult : Nat → Json) : Except String (DlPollOutcome × Nat) :=
  dlPollAux getResult 0 dlMaxAttempts

/-- The `expected_keys` list of the DL page (lines 185-188). -/
def dlExpectedKeys : List String :=
  ["valid", "active", "owner", "issued", "rto", "ntpIssued", "ntpExpiry",
   "tpIssued", "tpExpiry", "type", "categories", "message"]

/-- Freshly initialized DL result cells (lines 191-193). -/
def dlInitCells : List (String × Json) := dlExpectedKeys.map (fun k => (k, Json.null))

/-- The full blank write of lines 205-216 and 283-294. -/
def dlBlankCells (msg : String) : List (String × Json) :=
  [("valid", Json.bool false), ("active", Json.str ""), ("owner", Json.str ""),
   ("issued", Json.str ""), ("rto", Json.str ""), ("ntpIssued", Json.str ""),
   ("ntpExpiry", Json.str ""), ("tpIssued", Json.str ""), ("tpExpiry", Json.str ""),
   ("type", Json.str ""), ("categories", Json.str ""), ("message", Json.str msg)]

/-- The ten scalar writes of lines 261-270 from the mapped response. -/
def dlScalarCells (mapped : List (String × Json)) : List (String × Json) :=
  [("valid", (dictFind mapped "valid").getD (Json.bool false)),
   ("active", (dictFind mapped "active").getD (Json.str "")),
   ("owner", (dictFind mapped "owner").getD (Json.str "")),
   ("issued", (dictFind mapped "issued").getD (Json.str "")),
   ("rto", (dictFind mapped "rto").getD (Json.str "")),
   ("ntpIssued", (dictFind mapped "ntpIssued").getD (Json.str "")),
   ("ntpExpiry", (dictFind mapped "ntpExpiry").getD (Json.str "")),
   ("tpIssued", (dictFind mapped "tpIssued").getD (Json.str "")),
   ("tpExpiry", (dictFind mapped "tpExpiry").getD (Json.str "")),
   ("type", (dictFind mapped "type").getD (Json.str ""))]

/-- The categories expansion loop (lines 275-277). -/
def dlExpandRowsAux (sno dl dob : Json) (i0 : Nat) :
    List Json → Except String (List (List (String × Json)))
  | [] => .ok []
  | c :: rest =>
    match pyKwargs c with
    | .error e => .error e
    | .ok gs =>
      match dlExpandRowsAux sno dl dob (i0 + 1) rest with
      | .error e => .error e
      | .ok tl => .ok (dlExpandedRow sno dl dob (i0 + 1) gs :: tl)

/-- One row of `process_parivahan_verification` from the missing-input check
through polling and mapping (lines 196-294): result cells, expanded
category rows, and the number of status queries made. -/
def processDlRow (sno dlNumber dob initResp : Json) (getResult : Nat → Json) :
    Except String (List (String × Json) × List (List (String × Json)) × Nat) :=
  if cellMissing dlNumber || cellMissing dob then
    .ok (dlInitCells ++ dlBlankCells "DL Number or DOB is missing.", [], 0)
  else
    match pyGetD initResp "_id" Json.null with
    | .error e => .error e
    | .ok asyncId =>
      if !asyncId.isTruthy then
        .ok (dlInitCells ++ [("valid", Json.bool false),
          ("message", Json.str "Failed to initiate verification.")], [], 0)
      else
        match dlPoll getResult with
        | .error e => .error e
        | .ok oc =>
          match oc.1 with
          | .completed output =>
            if output.isTruthy then
              match map_response_to_df output dlExpectedKeys with
              | .error e => .error e
              | .ok mapped =>
                match (dictFind mapped "categories").getD (Json.str "") with
                | .arr cats =>
                  match dlExpandRowsAux sno dlNumber dob 0 cats with
                  | .error e => .error e
                  | .ok exp =>
                    .ok (dlInitCells ++ dlScalarCells mapped ++
                      [("categories", Json.str (pyStr (Json.arr cats))),
                       ("message", (dictFind mapped "message").getD (Json.str ""))],
                      exp, oc.2)
                | _ =>
                  .ok (dlInitCells ++ dlScalarCells mapped ++
                    [("categories", Json.str ""),
                     ("message", (dictFind mapped "message").getD (Json.str ""))],
                    [], oc.2)
            else
              .ok (dlInitCells ++ dlBlankCells "No data returned from API.", [], oc.2)
          | .errored =>
            .ok (dlInitCells ++ [("valid", Json.bool false),
              ("message", Json.str "Verification did not complete.")], [], oc.2)
          | .timedOut =>
            .ok (dlInitCells ++ [("valid", Json.bool false),
              ("message", Json.str "Verification did not complete.")], [], oc.2)

/-- A poll body whose status is neither COMPLETED nor ERRORED (court page:
`.get('status', '')`). -/
def courtNonTerminalB (r : Json) : Bool :=
  match pyGetD r "status" (Json.str "") with
  | .ok s => !(decide (s = Json.str "COMPLETED")) && !(decide (s = Json.str "ERRORED"))
  | .error _ => false

/-- A poll body whose status is COMPLETED (court page). -/
def courtCompletedB (r : Json) : Bool :=
  match pyGetD r "status" (Json.str "") with
  | .ok s => decide (s = Json.str "COMPLETED")
  | .error _ => false

/-- A poll body whose status is neither COMPLETED nor ERRORED (DL page:
`.get('status')`, default None). -/
def dlNonTerminalB (r : Json) : Bool :=
  match pyGetD r "status" Json.null with
  | .ok s => !(decide (s = Json.str "COMPLETED")) && !(decide (s = Json.str "ERRORED"))
  | .error _ => false

/-- A poll body whose status is COMPLETED (DL page). -/
def dlCompletedB (r : Json) : Bool :=
  match pyGetD r "status" Json.null with
  | .ok s => decide (s = Json.str "COMPLETED")
  | .error _ => false

theorem pyGetD_ok_obj {r : Json} {k : String} {d v : Json}
    (h : pyGetD r k d = .ok v) : ∃ fs, r = Json.obj fs := by
  cases r with
  | obj fs => exact ⟨fs, rfl⟩
  | null => simp [pyGetD] at h
  | bool b => simp [pyGetD] at h
  | num n => simp [pyGetD] at h
  | str s => simp [pyGetD] at h
  | arr xs => simp [pyGetD] at h

theorem courtPollAux_step (g : Nat → Json) (attempt fuel : Nat) :
    courtPollAux g attempt (fuel + 1) =
      match pyGetD (g attempt) "status" (Json.str "") with
      | .error e => .error e
      | .ok status =>
        if status = Json.str "COMPLETED" then
          match pyGetD (g attempt) "output" (Json.obj []) with
          | .error e => .error e
          | .ok output => .ok (.completed output, attempt + 1)
        else if status = Json.str "ERRORED" then
          match pyGetD (g attempt) "error" (Json.obj []) with
          | .error e => .error e
          | .ok errObj =>
            match pyGetD errObj "message" (Json.str "Unknown error.") with
            | .error e => .error e
            | .ok msg => .ok (.errored msg, attempt + 1)
        else courtPollAux g (attempt + 1) fuel := rfl

theorem dlPollAux_step (g : Nat → Json) (attempt fuel : Nat) :
    dlPollAux g attempt (fuel + 1) =
      match pyGetD (g attempt) "status" Json.null with
      | .error e => .error e
      | .ok status =>
        if status = Json.str "COMPLETED" then
          match pyGetD (g attempt) "output" (Json.obj []) with
          | .error e => .error e
          | .ok output => .ok (.completed output, attempt + 1)
        else if status = Json.str "ERRORED" then
          match pyGetD (g attempt) "error" (Json.obj []) with
          | .error e => .error e
          | .ok errObj =>
            match pyGetD errObj "message"
                (Json.str "An error occurred during verification.") with
            | .error e => .error e
            | .ok _ => .ok (.errored, attempt + 1)
        else dlPollAux g (attempt + 1) fuel := rfl

theorem courtPollAux_timeout (getResult : Nat → Json) :
    ∀ (fuel attempt : Nat),
    (∀ n, attempt ≤ n → n < attempt + fuel → courtNonTerminalB (getResult n) = true) →
    courtPollAux getResult attempt fuel = .ok (.timedOut, attempt + fuel) := by
  intro fuel
  induction fuel with
  | zero =>
    intro attempt _
    simp [courtPollAux]
  | succ fuel ih =>
    intro attempt h
    have hn := h attempt (le_refl _) (by omega)
    unfold courtNonTerminalB at hn
    cases hs : pyGetD (getResult attempt) "status" (Json.str "") with
    | error e => rw [hs] at hn; simp at hn
    | ok s =>
      rw [hs] at hn
      simp only [Bool.and_eq_true, Bool.not_eq_true', decide_eq_false_iff_not] at hn
      obtain ⟨h1, h2⟩ := hn
      simp only [courtPollAux, hs]
      rw [if_neg h1, if_neg h2,
        ih (attempt + 1) (fun n hn1 hn2 => h n (by omega) (by omega))]
      have harith : attempt + 1 + fuel = attempt + (fuel + 1) := by omega
      rw [harith]

theorem courtPollAux_completes_last (getResult : Nat → Json) :
    ∀ (k attempt : Nat),
    (∀ n, attempt ≤ n → n < attempt + k → courtNonTerminalB (getResult n) = true) →
    courtCompletedB (getResult (attempt + k)) = true →
    ∃ out, courtPollAux getResult attempt (k + 1) = .ok (.completed out, attempt + k + 1) := by
  intro k
  induction k with
  | zero =>
    intro attempt _ hc
    rw [Nat.add_zero] at hc ⊢
    unfold courtCompletedB at hc
    cases hs : pyGetD (getResult attempt) "status" (Json.str "") with
    | error e => rw [hs] at hc; simp at hc
    | ok s =>
      rw [hs] at hc
      simp only [decide_eq_true_eq] at hc
      obtain ⟨fs, hobj⟩ := pyGetD_ok_obj hs
      refine ⟨jsonGetTotal (Json.obj fs) "output" (Json.obj []), ?_⟩
      rw [courtPollAux_step]
      simp only [hs]
      rw [if_pos hc, hobj]
      simp [pyGetD, jsonGetTotal]
  | succ k ih =>
    intro attempt h hc
    have hn := h attempt (le_refl _) (by omega)
    unfold courtNonTerminalB at hn
    cases hs : pyGetD (getResult attempt) "status" (Json.str "") with
    | error e => rw [hs] at hn; simp at hn
    | ok s =>
      rw [hs] at hn
      simp only [Bool.and_eq_true, Bool.not_eq_true', decide_eq_false_iff_not] at hn
      obtain ⟨h1, h2⟩ := hn
      have hc2 : courtCompletedB (getResult (attempt + 1 + k)) = true := by
        have harith : attempt + 1 + k = attempt + (k + 1) := by omega
        rw [harith]
        exact hc
      obtain ⟨out, hout⟩ := ih (attempt + 1)
        (fun n hn1 hn2 => h n (by omega) (by omega)) hc2
      refine ⟨out, ?_⟩
      rw [courtPollAux_step]
      simp only [hs]
      rw [if_neg h1, if_neg h2, hout]
      have harith : attempt + 1 + k + 1 = attempt + (k + 1) + 1 := by omega
      rw [harith]

theorem dlPollAux_timeout (getResult : Nat → Json) :
    ∀ (fuel attempt : Nat),
    (∀ n, attempt ≤ n → n < attempt + fuel → dlNonTerminalB (getResult n) = true) →
    dlPollAux getResult attempt fuel = .ok (.timedOut, attempt + fuel) := by
  intro fuel
  induction fuel with
  | zero =>
    intro attempt _
    simp [dlPollAux]
  | succ fuel ih =>
    intro attempt h
    have hn := h attempt (le_refl _) (by omega)
    unfold dlNonTerminalB at hn
    cases hs : pyGetD (getResult attempt) "status" Json.null with
    | error e => rw [hs] at hn; simp at hn
    | ok s =>
      rw [hs] at hn
      simp only [Bool.and_eq_true, Bool.not_eq_true', decide_eq_false_iff_not] at hn
      obtain ⟨h1, h2⟩ := hn
      simp only [dlPollAux, hs]
      rw [if_neg h1, if_neg h2,
        ih (attempt + 1) (fun n hn1 hn2 => h n (by omega) (by omega))]
      have harith : attempt + 1 + fuel = attempt + (fuel + 1) := by omega
      rw [harith]

theorem dlPollAux_completes_last (getResult : Nat → Json) :
    ∀ (k attempt : Nat),
    (∀ n, attempt ≤ n → n < attempt + k → dlNonTerminalB (getResult n) = true) →
    dlCompletedB (getResult (attempt + k)) = true →
    ∃ out, dlPollAux getResult attempt (k + 1) = .ok (.completed out, attempt + k + 1) := by
  intro k
  induction k with
  | zero =>
    intro attempt _ hc
    rw [Nat.add_zero] at hc ⊢
    unfold dlCompletedB at hc
    cases hs : pyGetD (getResult attempt) "status" Json.null with
    | error e => rw [hs] at hc; simp at hc
    | ok s =>
      rw [hs] at hc
      simp only [decide_eq_true_eq] at hc
      obtain ⟨fs, hobj⟩ := pyGetD_ok_obj hs
      refine ⟨jsonGetTotal (Json.obj fs) "output" (Json.obj []), ?_⟩
      rw [dlPollAux_step]
      simp only [hs]
      rw [if_pos hc, hobj]
      simp [pyGetD, jsonGetTotal]
  | succ k ih =>
    intro attempt h hc
    have hn := h attempt (le_refl _) (by omega)
    unfold dlNonTerminalB at hn
    cases hs : pyGetD (getResult attempt) "status" Json.null with
    | error e => rw [hs] at hn; simp at hn
    | ok s =>
      rw [hs] at hn
      simp only [Bool.and_eq_true, Bool.not_eq_true', decide_eq_false_iff_not] at hn
      obtain ⟨h1, h2⟩ := hn
      have hc2 : dlCompletedB (getResult (attempt + 1 + k)) = true := by
        have harith : attempt + 1 + k = attempt + (k + 1) := by omega
        rw [harith]
        exact hc
      obtain ⟨out, hout⟩ := ih (attempt + 1)
        (fun n hn1 hn2 => h n (by omega) (by omega)) hc2
      refine ⟨out, ?_⟩
      rw [dlPollAux_step]
      simp only [hs]
      rw [if_neg h1, if_neg h2, hout]
      have harith : attempt + 1 + k + 1 = attempt + (k + 1) + 1 := by omega
      rw [harith]

/-- Claim C4 counterexample: the DL row against a service that never leaves
PENDING performs its 20 polls and then marks the row with message
"Verification did not complete." — not "Search did not complete in time."
as the claim states for both checks (that text exists only on the
court-record page). -/
theorem C4_counterexample :
    (processDlRow (Json.num 1) (Json.str "DL042") (Json.str "01-01-1990")
        (Json.obj [("_id", Json.str "J1")])
        (fun _ => Json.obj [("status", Json.str "PENDING")])).toOption.map
        (fun p => (p.2.2, dictFind p.1 "message")) =
      some (20, some (Json.str "Verification did not complete.")) ∧
    ¬ (Json.str "Verification did not complete." =
       Json.str "Search did not complete in time.") := ⟨by decide, by decide⟩

/-- Claim C4 (amended): with a status service that never reaches a terminal
state the court-record poller performs exactly 15 status queries and then
writes "Search did not complete in time." into the row (in its `number`
column, with valid=false), and the DL poller performs exactly 20 status
queries and then writes message "Verification did not complete." (with
valid=false); neither retries further.  If the service reports COMPLETED on
the final allowed poll (the 15th and the 20th respectively), each poller
terminates successfully at that last attempt. -/
theorem C4_poll_budget_and_timeout_text :
    (∀ (tag submitResp : Json) (g : Nat → Json) (items first asyncId number : Json),
      cellMissing tag = false →
      submitResp.isTruthy = true →
      pyGetD submitResp "items" (Json.arr []) = .ok items →
      items.isTruthy = true →
      pyIndex0 items = .ok first →
      pyGetD first "_id" (Json.str "") = .ok asyncId →
      pyGetD first "number" (Json.str "") = .ok number →
      asyncId.isTruthy = true →
      (∀ n, n < 15 → courtNonTerminalB (g n) = true) →
      ∃ cells, processCourtRow tag submitResp g = .ok (cells, 15) ∧
        dictFind cells "number" = some (Json.str "Search did not complete in time.") ∧
        dictFind cells "valid" = some (Json.bool false)) ∧
    (∀ g : Nat → Json,
      (∀ n, n < 14 → courtNonTerminalB (g n) = true) →
      courtCompletedB (g 14) = true →
      ∃ out, courtPoll g = .ok (.completed out, 15)) ∧
    (∀ (sno dlNumber dob initResp : Json) (g : Nat → Json) (asyncId : Json),
      cellMissing dlNumber = false →
      cellMissing dob = false →
      pyGetD initResp "_id" Json.null = .ok asyncId →
      asyncId.isTruthy = true →
      (∀ n, n < 20 → dlNonTerminalB (g n) = true) →
      ∃ cells, processDlRow sno dlNumber dob initResp g = .ok (cells, [], 20) ∧
        dictFind cells "message" = some (Json.str "Verification did not complete.") ∧
        dictFind cells "valid" = some (Json.bool false)) ∧
    (∀ g : Nat → Json,
      (∀ n, n < 19 → dlNonTerminalB (g n) = true) →
      dlCompletedB (g 19) = true →
      ∃ out, dlPoll g = .ok (.completed out, 20)) := by
  refine ⟨?_, ?_, ?_, ?_⟩
  · intro tag submitResp g items first asyncId number hm hsub hitems hitr hfirst hid hnum
      hasy hnt
    have hpoll : courtPoll g = .ok (.timedOut, 15) := by
      unfold courtPoll courtMaxRetries
      simpa using courtPollAux_timeout g 15 0 (fun n _ h2 => hnt n (by omega))
    refine ⟨courtInitCells ++ [("asyncId", asyncId), ("number", number)] ++
      [("valid", Json.bool false), ("finalRiskSummary", Json.str ""),
       ("casesCount", Json.num 0), ("records", Json.str ""),
       ("finalRiskLevel", Json.num 0),
       ("number", Json.str "Search did not complete in time.")], ?_, ?_, ?_⟩
    · unfold processCourtRow
      rw [hm]
      simp only [Bool.false_eq_true, if_false, hsub, Bool.not_true, hitems, hitr,
        hfirst, hid, hnum, hasy, hpoll]
    · rw [dictFind_append]
      simp [dictFind]
    · rw [dictFind_append]
      simp [dictFind]
  · intro g hnt hc
    have := courtPollAux_completes_last g 14 0 (fun n _ h2 => hnt n (by omega))
      (by simpa using hc)
    unfold courtPoll courtMaxRetries
    simpa using this
  · intro sno dlNumber dob initResp g asyncId hdl hdob hid hasy hnt
    have hpoll : dlPoll g = .ok (.timedOut, 20) := by
      unfold dlPoll dlMaxAttempts
      simpa using dlPollAux_timeout g 20 0 (fun n _ h2 => hnt n (by omega))
    refine ⟨dlInitCells ++ [("valid", Json.bool false),
      ("message", Json.str "Verification did not complete.")], ?_, ?_, ?_⟩
    · unfold processDlRow
      rw [hdl, hdob]
      simp only [Bool.or_self, Bool.false_eq_true, if_false, hid, hasy, Bool.not_true,
        hpoll]
    · rw [dictFind_append]
      simp [dictFind]
    · rw [dictFind_append]
      simp [dictFind]
  · intro g hnt hc
    have := dlPollAux_completes_last g 19 0 (fun n _ h2 => hnt n (by omega))
      (by simpa using hc)
    unfold dlPoll dlMaxAttempts
    simpa using this

/-- Never-terminal status service for the C4 witness. -/
def c4pending : Nat → Json := fun _ => Json.obj [("status", Json.str "RUNNING")]

/-- Court submission response of the C4 witness. -/
def c4submit : Json :=
  Json.obj [("items", Json.arr
    [Json.obj [("_id", Json.str "A1"), ("number", Json.str "N1")]])]

/-- Status service that completes exactly on the 15th court poll. -/
def c4courtLast : Nat → Json := fun n =>
  if n < 14 then Json.obj [("status", Json.str "RUNNING")]
  else Json.obj [("status", Json.str "COMPLETED"),
                 ("output", Json.obj [("valid", Json.bool true)])]

/-- DL initiation response of the C4 witness. -/
def c4dlInit : Json := Json.obj [("_id", Json.str "A1")]

/-- Status service that completes exactly on the 20th DL poll. -/
def c4dlLast : Nat → Json := fun n =>
  if n < 19 then Json.obj [("status", Json.str "RUNNING")]
  else Json.obj [("status", Json.str "COMPLETED"),
                 ("output", Json.obj [("valid", Json.bool true)])]

/-- Claim C4 witness: concrete services exercising all four poll budgets. -/
theorem C4_witness :
    (∃ cells, processCourtRow (Json.str "T1") c4submit c4pending = .ok (cells, 15) ∧
      dictFind cells "number" = some (Json.str "Search did not complete in time.") ∧
      dictFind cells "valid" = some (Json.bool false)) ∧
    (∃ out, courtPoll c4courtLast = .ok (.completed out, 15)) ∧
    (∃ cells, processDlRow (Json.num 1) (Json.str "DL042") (Json.str "01-01-1990")
        c4dlInit c4pending = .ok (cells, [], 20) ∧
      dictFind cells "message" = some (Json.str "Verification did not complete.") ∧
      dictFind cells "valid" = some (Json.bool false)) ∧
    (∃ out, dlPoll c4dlLast = .ok (.completed out, 20)) :=
  ⟨C4_poll_budget_and_timeout_text.1 (Json.str "T1") c4submit c4pending
      (Json.arr [Json.obj [("_id", Json.str "A1"), ("number", Json.str "N1")]])
      (Json.obj [("_id", Json.str "A1"), ("number", Json.str "N1")])
      (Json.str "A1") (Json.str "N1")
      (by decide) (by decide) (by decide) (by decide) (by decide) (by decide)
      (by decide) (by decide)
      (fun n _ => by
        show courtNonTerminalB (Json.obj [("status", Json.str "RUNNING")]) = true
        decide),
   C4_poll_budget_and_timeout_text.2.1 c4courtLast
      (fun n hn => by unfold c4courtLast; rw [if_pos hn]; decide) (by decide),
   C4_poll_budget_and_timeout_text.2.2.1 (Json.num 1) (Json.str "DL042")
      (Json.str "01-01-1990") c4dlInit c4pending (Json.str "A1")
      (by decide) (by decide) (by decide) (by decide)
      (fun n _ => by
        show dlNonTerminalB (Json.obj [("status", Json.str "RUNNING")]) = true
        decide),
   C4_poll_budget_and_timeout_text.2.2.2 c4dlLast
      (fun n hn => by unfold c4dlLast; rw [if_pos hn]; decide) (by decide)⟩

/-- Claim C9 counterexample: on the court-record page a submission response
whose first item has no job identifier marks the row "Async ID missing."
(in the `number` column) — not "Failed to initiate verification." as the
claim states for every async check — although, as claimed, no status query
is made (the second component of the result is 0). -/
theorem C9_counterexample :
    processCourtRow (Json.str "T1")
        (Json.obj [("items", Json.arr [Json.obj [("number", Json.str "N1")]])])
        (fun _ => Json.obj []) =
      .ok (courtInitCells ++ courtFailCells "Async ID missing.", 0) ∧
    ¬ (Json.str "Async ID missing." = Json.str "Failed to initiate verification.") :=
  ⟨by decide, by decide⟩

/-- Claim C9 (amended): when the submission response carries no job
identifier the polling state machine never starts — zero status queries are
made — and the row is marked "Failed to initiate verification." on the
driving-license page, but "Async ID missing." (in the `number` column) on
the court-record page. -/
theorem C9_no_job_id_no_polling :
    (∀ (sno dlNumber dob initResp : Json) (g : Nat → Json) (asyncId : Json),
      cellMissing dlNumber = false →
      cellMissing dob = false →
      pyGetD initResp "_id" Json.null = .ok asyncId →
      asyncId.isTruthy = false →
      processDlRow sno dlNumber dob initResp g =
        .ok (dlInitCells ++ [("valid", Json.bool false),
          ("message", Json.str "Failed to initiate verification.")], [], 0)) ∧
    (∀ (tag submitResp : Json) (g : Nat → Json) (items first asyncId number : Json),
      cellMissing tag = false →
      submitResp.isTruthy = true →
      pyGetD submitResp "items" (Json.arr []) = .ok items →
      items.isTruthy = true →
      pyIndex0 items = .ok first →
      pyGetD first "_id" (Json.str "") = .ok asyncId →
      pyGetD first "number" (Json.str "") = .ok number →
      asyncId.isTruthy = false →
      processCourtRow tag submitResp g =
        .ok (courtInitCells ++ courtFailCells "Async ID missing.", 0)) := by
  constructor
  · intro sno dlNumber dob initResp g asyncId hdl hdob hid hasy
    unfold processDlRow
    rw [hdl, hdob]
    simp only [Bool.or_self, Bool.false_eq_true, if_false, hid, hasy, Bool.not_false,
      if_true]
  · intro tag submitResp g items first asyncId number hm hsub hitems hitr hfirst hid
      hnum hasy
    unfold processCourtRow
    rw [hm]
    simp only [Bool.false_eq_true, if_false, hsub, Bool.not_true, hitems, hitr, hfirst,
      hid, hnum, hasy, Bool.not_false, if_true]

/-- Claim C9 witness: a DL initiation response with no `_id` at all, and a
court submission whose first item carries an empty `_id`. -/
theorem C9_witness :
    processDlRow (Json.num 1) (Json.str "DL042") (Json.str "01-01-1990") (Json.obj [])
        (fun _ => Json.obj []) =
      .ok (dlInitCells ++ [("valid", Json.bool false),
        ("message", Json.str "Failed to initiate verification.")], [], 0) ∧
    processCourtRow (Json.str "T2")
        (Json.obj [("items", Json.arr [Json.obj [("_id", Json.str "")]])])
        (fun _ => Json.obj []) =
      .ok (courtInitCells ++ courtFailCells "Async ID missing.", 0) :=
  ⟨C9_no_job_id_no_polling.1 (Json.num 1) (Json.str "DL042") (Json.str "01-01-1990")
      (Json.obj []) (fun _ => Json.obj []) Json.null (by decide) (by decide) (by decide)
      (by decide),
   C9_no_job_id_no_polling.2 (Json.str "T2")
      (Json.obj [("items", Json.arr [Json.obj [("_id", Json.str "")]])])
      (fun _ => Json.obj []) (Json.arr [Json.obj [("_id", Json.str "")]])
      (Json.obj [("_id", Json.str "")]) (Json.str "") (Json.str "")
      (by decide) (by decide) (by decide) (by decide) (by decide) (by decide)
      (by decide) (by decide)⟩

/-- Claim C7 counterexample: the PAN page reads its file with no dtype
override (line 91), so default inference coerces the all-digit identifier
text "00123" to the number 123; the transport then receives the numeric
cell — recorded in the call log as the number 123, not the text "00123"
as it appears in the file. -/
theorem C7_counterexample :
    panVerificationReadCell "00123" = Json.num 123 ∧
    ¬ (panVerificationReadCell "00123" = Json.str "00123") ∧
    (processPanRow (fun _ _ => .ok (Json.obj [])) "T" { cache := [], calls := [] }
        ⟨Json.num 1, panVerificationReadCell "00123"⟩).toOption.map
        (fun p => p.2.calls) = some [(Json.num 123, "T")] :=
  ⟨by decide, by decide, by decide⟩

/-- Claim C7 (amended): the court-record page (dtype=str, line 254) keeps
every nonempty identifier cell as opaque text; the PAN page (no dtype,
line 91) keeps mixed alphanumeric and other non-numeric content verbatim,
but coerces an all-digit cell to a number — so on the PAN page an
identifier with leading zeros is altered before the verification call. -/
theorem C7_identifier_cells_as_text :
    (∀ raw : String, raw ≠ "" → courtRecordReadCell raw = Json.str raw) ∧
    (∀ raw : String, raw ≠ "" → pyDigits? raw = none →
      panVerificationReadCell raw = Json.str raw) ∧
    panVerificationReadCell "00123" = Json.num 123 := by
  refine ⟨?_, ?_, by decide⟩
  · intro raw h
    unfold courtRecordReadCell readCell
    rw [if_neg h]
    rfl
  · intro raw h hn
    unfold panVerificationReadCell readCell
    rw [if_neg h, hn]
    rfl

/-- Claim C7 witness: a leading-zero identifier survives the court-record
read; a mixed alphanumeric identifier survives even the PAN read. -/
theorem C7_witness :
    courtRecordReadCell "00123" = Json.str "00123" ∧
    panVerificationReadCell "ABCDE1234F" = Json.str "ABCDE1234F" :=
  ⟨C7_identifier_cells_as_text.1 "00123" (by decide),
   C7_identifier_cells_as_text.2.1 "ABCDE1234F" (by decide) (by decide)⟩

/-! ## MCA director master data (reports/1__MCA Operations.py, lines 226-316) -/

/-- One parsed input row of the director page (columns `sno`, `reg`). -/
structure DirInRow where
  sno : Json
  reg : Json
deriving DecidableEq, Repr

/-- One primary output row of the director page: the two input columns plus
the result cells (last binding wins on lookup, modelling in-place writes). -/
structure DirPrimaryRow where
  sno : Json
  reg : Json
  cells : List (String × Json)
deriving DecidableEq, Repr

/-- The `expected_keys` list of `process_mca_director_master_data`
(lines 246-254). -/
def dirExpectedKeys : List String :=
  ["valid", "din", "status", "firstName", "middleName", "lastName", "fullName",
   "dinAllocationDate", "disqualified", "disqualificationRemovalDate",
   "disqualificationSection", "disqualificationDate", "disqualificationReason",
   "dinSurrenderDate", "dinSurrenderDeactivationReason", "dir3KYCFiled",
   "dir3KYCFiledFY", "associations", "signatoryAssociations", "pastAssociations",
   "indexId", "updated", "message"]

/-- All expected-key cells freshly initialized to None (lines 257-259). -/
def dirNullCells : List (String × Json) := dirExpectedKeys.map (fun k => (k, Json.null))

/-- The failure writes of lines 271-272 and 301-302: only `valid` and
`message` are set. -/
def dirFailRow (row : DirInRow) (msg : String) : DirPrimaryRow :=
  { sno := row.sno, reg := row.reg,
    cells := dirNullCells ++ [("valid", Json.bool false), ("message", Json.str msg)] }

/-- One expanded row (line 293): the tag dict sno, din, subsno, then the
association sub-object's own bindings, which overwrite the tags on lookup. -/
def dirExpandedRow (sno din : Json) (subsno : Nat) (fields : List (String × Json)) :
    List (String × Json) :=
  [("sno", sno), ("din", din), ("subsno", Json.num subsno)] ++ fields

/-- The loop `for subsno, assc in enumerate(asscns, start=1)` (lines 292-294). -/
def dirExpandRowsAux (sno din : Json) (i0 : Nat) :
    List Json → Except String (List (List (String × Json)))
  | [] => .ok []
  | a :: rest =>
    match pyKwargs a with
    | .error e => .error e
    | .ok gs =>
      match dirExpandRowsAux sno din (i0 + 1) rest with
      | .error e => .error e
      | .ok tl => .ok (dirExpandedRow sno din (i0 + 1) gs :: tl)

/-- The per-row body of `process_mca_director_master_data` (lines 263-302).
After the mapped writes, lines 284-286 read back the `associations` and
`pastAssociations` cells — i.e. `response.get(key, "")` — and build
`newassc` by Python unpacking, which raises `TypeError` on a non-iterable
value such as None (modelled by `pyIterate`); line 288 writes the combined
list back into the cell, and the loop of lines 292-294 requires every
element to be a dict. -/
def processMcaDirectorRow (oracle : Json → Json) (row : DirInRow) :
    Except String (DirPrimaryRow × List (List (String × Json))) :=
  if cellMissing row.reg then .ok (dirFailRow row "DIN is missing.", [])
  else
    let res := oracle row.reg
    if res.isTruthy then
      match map_response_to_df res dirExpectedKeys with
      | .error e => .error e
      | .ok mapped =>
        match pyIterate ((dictFind mapped "associations").getD (Json.str "")) with
        | .error e => .error e
        | .ok assc1 =>
          match pyIterate ((dictFind mapped "pastAssociations").getD (Json.str "")) with
          | .error e => .error e
          | .ok assc2 =>
            match dirExpandRowsAux row.sno row.reg 0 (assc1 ++ assc2) with
            | .error e => .error e
            | .ok exp =>
              .ok ({ sno := row.sno, reg := row.reg,
                     cells := dirNullCells ++ mapped ++
                       [("associations", Json.arr (assc1 ++ assc2))] }, exp)
    else .ok (dirFailRow row "No data returned from API.", [])

/-- The whole director row loop (lines 261-302), accumulating primary and
expanded rows in input order. -/
def processMcaDirectorRows (oracle : Json → Json) :
    List DirInRow → Except String (List DirPrimaryRow × List (List (String × Json)))
  | [] => .ok ([], [])
  | row :: rows =>
    match processMcaDirectorRow oracle row with
    | .error e => .error e
    | .ok p =>
      match processMcaDirectorRows oracle rows with
      | .error e => .error e
      | .ok ps => .ok (p.1 :: ps.1, p.2 ++ ps.2)

/-- A director primary row as a dict: pinned input columns, then cells. -/
def DirPrimaryRow.toCells (r : DirPrimaryRow) : List (String × Json) :=
  [("sno", r.sno), ("reg", r.reg)] ++ r.cells

/-- Column list of the director page's expanded frame, with the fixed
fallback columns of line 307. -/
def dirExpandedCols (exps : List (List (String × Json))) : List String :=
  if exps.isEmpty then ["sno", "din", "subsno"]
  else (exps.flatMap (fun r => r.map (fun f => f.1))).dedup

/-- `process_mca_director_master_data` (lines 226-316) after file and column
validation: the row loop followed by the left merge on sno and din
(line 309); the function-level handler turns any escaped exception into
`None`. -/
def process_mca_director_master_data (oracle : Json → Json) (rows : List DirInRow) :
    Option (List DirPrimaryRow × List (List (String × Json))) :=
  match processMcaDirectorRows oracle rows with
  | .error _ => none
  | .ok res =>
    some (res.1, leftJoin ["sno", "din"] (dirExpandedCols res.2)
      (res.1.map DirPrimaryRow.toCells) res.2)

/-- A director client whose responses are well-shaped: every truthy
response is a JSON object whose associations and pastAssociations values
(each defaulting to the empty string) are Python-iterable with every
element an object — exactly what lines 284-294 need in order not to raise. -/
def dirOracleSafe (oracle : Json → Json) : Prop :=
  ∀ din, (oracle din).isTruthy = true →
    ∃ fs, oracle din = Json.obj fs ∧
      ∃ xs ys, pyIterate ((dictFind fs "associations").getD (Json.str "")) = .ok xs ∧
        pyIterate ((dictFind fs "pastAssociations").getD (Json.str "")) = .ok ys ∧
        ∀ a ∈ xs ++ ys, ∃ gs, a = Json.obj gs

theorem dictFind_eq_none {l : List (String × Json)} {k : String}
    (h : ∀ e ∈ l, e.1 ≠ k) : dictFind l k = none := by
  induction l with
  | nil => rfl
  | cons e rest ih =>
    obtain ⟨k2, v⟩ := e
    simp only [dictFind, ih (fun e2 he => h e2 (List.mem_cons_of_mem _ he))]
    rw [if_neg (h (k2, v) (List.mem_cons_self _ _))]

theorem dictFind_mapped (fs : List (String × Json)) :
    ∀ (keys : List String) (k : String), k ∈ keys →
    dictFind (keys.map (fun k2 => (k2, (dictFind fs k2).getD (Json.str "")))) k =
      some ((dictFind fs k).getD (Json.str "")) := by
  intro keys
  induction keys with
  | nil =>
    intro k hk
    cases hk
  | cons k0 rest ih =>
    intro k hk
    simp only [List.map_cons, dictFind]
    by_cases hmem : k ∈ rest
    · rw [ih k hmem]
    · have hk0 : k0 = k := by
        rcases List.mem_cons.mp hk with h | h
        · exact h.symm
        · exact absurd h hmem
      have hnone : dictFind
          (rest.map (fun k2 => (k2, (dictFind fs k2).getD (Json.str "")))) k = none := by
        apply dictFind_eq_none
        intro e he
        rw [List.mem_map] at he
        obtain ⟨k2, hk2, he2⟩ := he
        rw [← he2]
        intro hc
        exact hmem (hc ▸ hk2)
      rw [hnone, hk0]
      simp

theorem dirExpandRowsAux_total (sno din : Json) :
    ∀ (l : List Json) (i0 : Nat), (∀ a ∈ l, ∃ gs, a = Json.obj gs) →
    ∃ exp, dirExpandRowsAux sno din i0 l = .ok exp := by
  intro l
  induction l with
  | nil =>
    intro i0 _
    exact ⟨[], rfl⟩
  | cons a rest ih =>
    intro i0 h
    obtain ⟨gs, hgs⟩ := h a (List.mem_cons_self _ _)
    obtain ⟨exp, hexp⟩ := ih (i0 + 1) (fun b hb => h b (List.mem_cons_of_mem _ hb))
    refine ⟨dirExpandedRow sno din (i0 + 1) gs :: exp, ?_⟩
    rw [dirExpandRowsAux, hgs]
    simp only [pyKwargs, hexp]

theorem dirFailRow_lookups (row : DirInRow) (msg : String) :
    dictFind (dirFailRow row msg).cells "valid" = some (Json.bool false) ∧
    dictFind (dirFailRow row msg).cells "message" = some (Json.str msg) := by
  unfold dirFailRow
  constructor
  · rw [dictFind_append]
    simp [dictFind]
  · rw [dictFind_append]
    simp [dictFind]

theorem processMcaDirectorRow_safe {oracle : Json → Json} (hsafe : dirOracleSafe oracle)
    (row : DirInRow) :
    ∃ p, processMcaDirectorRow oracle row = .ok p ∧
      p.1.sno = row.sno ∧ p.1.reg = row.reg ∧
      (cellMissing row.reg = true →
        dictFind p.1.cells "valid" = some (Json.bool false) ∧
        dictFind p.1.cells "message" = some (Json.str "DIN is missing.")) ∧
      (cellMissing row.reg = false → (oracle row.reg).isTruthy = false →
        dictFind p.1.cells "valid" = some (Json.bool false) ∧
        dictFind p.1.cells "message" = some (Json.str "No data returned from API.")) := by
  by_cases hm : cellMissing row.reg = true
  · refine ⟨(dirFailRow row "DIN is missing.", []), ?_, rfl, rfl, ?_, ?_⟩
    · rw [processMcaDirectorRow, if_pos hm]
    · intro _
      exact dirFailRow_lookups row "DIN is missing."
    · intro hc
      rw [hm] at hc
      exact absurd hc (by decide)
  · have hmf : cellMissing row.reg = false := by
      revert hm
      cases cellMissing row.reg <;> simp
    by_cases ht : (oracle row.reg).isTruthy = true
    · obtain ⟨fs, hfs, xs, ys, hxs, hys, hall⟩ := hsafe row.reg ht
      obtain ⟨exp, hexp⟩ := dirExpandRowsAux_total row.sno row.reg (xs ++ ys) 0 hall
      have hmap : map_response_to_df (oracle row.reg) dirExpectedKeys =
          .ok (dirExpectedKeys.map (fun k => (k, (dictFind fs k).getD (Json.str "")))) := by
        rw [hfs]
        exact map_response_obj fs dirExpectedKeys
      have ha := dictFind_mapped fs dirExpectedKeys "associations" (by decide)
      have hp2 := dictFind_mapped fs dirExpectedKeys "pastAssociations" (by decide)
      refine ⟨({ sno := row.sno, reg := row.reg,
                 cells := dirNullCells ++
                   dirExpectedKeys.map (fun k => (k, (dictFind fs k).getD (Json.str ""))) ++
                   [("associations", Json.arr (xs ++ ys))] }, exp), ?_, rfl, rfl, ?_, ?_⟩
      · simp [processMcaDirectorRow, hmf, ht, hmap, ha, hp2, hxs, hys, hexp]
      · intro hc
        rw [hmf] at hc
        exact absurd hc (by decide)
      · intro _ hc
        rw [ht] at hc
        exact absurd hc (by decide)
    · have htf : (oracle row.reg).isTruthy = false := by
        revert ht
        cases (oracle row.reg).isTruthy <;> simp
      refine ⟨(dirFailRow row "No data returned from API.", []), ?_, rfl, rfl, ?_, ?_⟩
      · simp [processMcaDirectorRow, hmf, htf]
      · intro hc
        rw [hmf] at hc
        exact absurd hc (by decide)
      · intro _ _
        exact dirFailRow_lookups row "No data returned from API."

theorem processMcaDirectorRows_safe {oracle : Json → Json} (hsafe : dirOracleSafe oracle) :
    ∀ rows : List DirInRow, ∃ ps exps,
      processMcaDirectorRows oracle rows = .ok (ps, exps) ∧
      ps.length = rows.length ∧
      ∀ i (hi : i < rows.length) (hip : i < ps.length),
        ps[i].sno = rows[i].sno ∧ ps[i].reg = rows[i].reg ∧
        (cellMissing rows[i].reg = true →
          dictFind ps[i].cells "valid" = some (Json.bool false) ∧
          dictFind ps[i].cells "message" = some (Json.str "DIN is missing.")) ∧
        (cellMissing rows[i].reg = false → (oracle rows[i].reg).isTruthy = false →
          dictFind ps[i].cells "valid" = some (Json.bool false) ∧
          dictFind ps[i].cells "message" = some (Json.str "No data returned from API.")) := by
  intro rows
  induction rows with
  | nil =>
    refine ⟨[], [], rfl, rfl, ?_⟩
    intro i hi hip
    exact absurd hi (Nat.not_lt_zero i)
  | cons row rows ih =>
    obtain ⟨p, hp, hsno, hreg, hmiss, hnod⟩ := processMcaDirectorRow_safe hsafe row
    obtain ⟨ps, exps, hps, hlen, hspec⟩ := ih
    refine ⟨p.1 :: ps, p.2 ++ exps, ?_, by simp [hlen], ?_⟩
    · simp only [processMcaDirectorRows, hp, hps]
    · intro i hi hip
      cases i with
      | zero => exact ⟨hsno, hreg, hmiss, hnod⟩
      | succ n =>
        simp only [List.getElem_cons_succ]
        exact hspec n (Nat.lt_of_succ_lt_succ hi) (Nat.lt_of_succ_lt_succ hip)

/-- Claim C1 (counterexample): in both cited functions a per-row failure
discards the whole batch.  On the PAN page a truthy non-object transport
response (here a JSON array) raises inside `map_response_to_df`; on the
director page even a well-formed JSON-object response aborts when its
`associations` value is null, because line 286 unpacks `[*oldassc,
*oldpastassc]` and None is not iterable.  In each case the only handler is
the function-level `except`, which returns None: the batch — including its
other, perfectly processable row — produces no output table at all. -/
theorem C1_counterexample :
    process_pan_verification (fun _ _ => .ok (Json.arr [Json.num 1])) "tok"
      [⟨Json.num 1, Json.str "AAAPA1234A"⟩, ⟨Json.num 2, Json.str "AAAPA9999B"⟩] = none ∧
    process_mca_director_master_data
      (fun _ => Json.obj [("valid", Json.bool true), ("associations", Json.null)])
      [⟨Json.num 1, Json.str "00123456"⟩, ⟨Json.num 2, Json.str "00234567"⟩] = none := by
  constructor
  · rfl
  · rfl

/-- Claim C1 (amended): for both cited functions the batch completes with
one output row per input row — failed rows marked valid=false with an
explanatory message — only under a well-shapedness proviso on the
transport.  For the PAN page: every truthy response is a JSON object
(`apiSafe`).  For the director page that is not enough: additionally the
object's `associations` and `pastAssociations` values (defaulting to "")
must be Python-iterable with every element itself an object
(`dirOracleSafe`), or lines 284-294 raise and the function-level handler
discards the batch. -/
theorem C1_batch_always_completes :
    (∀ (api : PanApi) (tok : String) (rows : List PanInRow), apiSafe api →
      ∃ outs, process_pan_verification api tok rows = some outs ∧
        outs.length = rows.length ∧
        ∀ i (hi : i < rows.length) (hio : i < outs.length),
          outs[i].sno = rows[i].sno ∧ outs[i].pan = rows[i].pan ∧
          (cellMissing rows[i].pan = true →
            outs[i].valid = Json.bool false ∧
            outs[i].message = Json.str "PAN is missing.") ∧
          (cellMissing rows[i].pan = false →
            (pureVerifyPan api rows[i].pan tok).isTruthy = false →
            outs[i].valid = Json.bool false ∧
            outs[i].message = Json.str "No data returned from API.")) ∧
    (∀ (oracle : Json → Json) (rows : List DirInRow), dirOracleSafe oracle →
      ∃ ps merged, process_mca_director_master_data oracle rows = some (ps, merged) ∧
        ps.length = rows.length ∧
        ∀ i (hi : i < rows.length) (hip : i < ps.length),
          ps[i].sno = rows[i].sno ∧ ps[i].reg = rows[i].reg ∧
          (cellMissing rows[i].reg = true →
            dictFind ps[i].cells "valid" = some (Json.bool false) ∧
            dictFind ps[i].cells "message" = some (Json.str "DIN is missing.")) ∧
          (cellMissing rows[i].reg = false → (oracle rows[i].reg).isTruthy = false →
            dictFind ps[i].cells "valid" = some (Json.bool false) ∧
            dictFind ps[i].cells "message" = some (Json.str "No data returned from API."))) := by
  constructor
  · intro api tok rows hsafe
    obtain ⟨outs, st2, h⟩ := processPanRows_total hsafe rows _ (panInv_init api tok)
    obtain ⟨hmap, -, -, -, -⟩ := processPanRows_ok_spec (panInv_init api tok) h
    subst hmap
    refine ⟨List.map (panRowOutPure api tok) rows, ?_, by simp, ?_⟩
    · unfold process_pan_verification
      simp only [h]
    · intro i hi hio
      simp only [List.getElem_map]
      refine ⟨(panRowOutPure_keys api tok rows[i]).1, (panRowOutPure_keys api tok rows[i]).2,
        ?_, ?_⟩
      · intro hm
        rw [panRowOutPure_missing hm]
        exact ⟨rfl, rfl⟩
      · intro hm ht
        rw [panRowOutPure_nodata hm ht]
        exact ⟨rfl, rfl⟩
  · intro oracle rows hsafe
    obtain ⟨ps, exps, heq, hlen, hspec⟩ := processMcaDirectorRows_safe hsafe rows
    refine ⟨ps, leftJoin ["sno", "din"] (dirExpandedCols exps)
      (ps.map DirPrimaryRow.toCells) exps, ?_, hlen, hspec⟩
    unfold process_mca_director_master_data
    simp only [heq]

/-- Concrete instantiation of both halves of the amended C1: a two-row PAN
batch against a transport that always fails at the connection level (hence
trivially object-shaped when truthy), and a two-row director batch against
a client whose responses are always the falsy empty object, both complete
with two output rows. -/
theorem C1_witness :
    (∃ outs, process_pan_verification (fun _ _ => .error "ConnectionError") "tok"
        [⟨Json.num 1, Json.str ""⟩, ⟨Json.num 2, Json.str "AAAPA1234A"⟩] = some outs ∧
      outs.length = 2) ∧
    (∃ ps merged, process_mca_director_master_data (fun _ => Json.obj [])
        [⟨Json.num 1, Json.str ""⟩, ⟨Json.num 2, Json.str "00123456"⟩] = some (ps, merged) ∧
      ps.length = 2) := by
  constructor
  · obtain ⟨outs, h1, h2, -⟩ := C1_batch_always_completes.1
      (fun _ _ => .error "ConnectionError") "tok"
      [⟨Json.num 1, Json.str ""⟩, ⟨Json.num 2, Json.str "AAAPA1234A"⟩]
      (fun _ _ _ h _ => nomatch h)
    exact ⟨outs, h1, h2⟩
  · obtain ⟨ps, merged, h1, h2, -⟩ := C1_batch_always_completes.2
      (fun _ => Json.obj [])
      [⟨Json.num 1, Json.str ""⟩, ⟨Json.num 2, Json.str "00123456"⟩]
      (fun _ ht => nomatch ht)
    exact ⟨ps, merged, h1, h2⟩
